import Mathlib

/-!
Verification development for the js-kanji two-tier text compression engine.

The JavaScript sources are shallow-embedded over `Str := List Char`:
pure string transforms become Lean functions, each JavaScript regular
expression used by the engine becomes a dedicated scanning function with the
exact global-replace semantics of `String.prototype.replace` (leftmost match,
non-overlapping, scan resumes after the match), and functions that `throw`
return `Except`.  JavaScript object literals (which may contain duplicate
keys) are kept as raw pair lists in source order and interpreted by
`objectEntries` (first-occurrence position, last-occurrence value).
-/

namespace JsKanji

/-- Strings are modelled as lists of characters (code points). -/
abbrev Str := List Char

/-- Conversion from a Lean string literal. -/
def str (s : String) : Str := s.toList

/-!
The helpers below reimplement a handful of `List` primitives directly with
the bare recursors (`List.rec`, `Nat.rec`).  They are extensionally equal to
the library versions (see `lenL_eq`, `dropN_eq`, `takeN_eq`, `takeWhileL_eq`,
`isPre_eq`, `beqS_eq` in the theorems section) and are used in the hot paths
of the scanners so that concrete evaluations reduce cheaply. -/

/-- `List.length`. -/
def lenL (l : List α) : Nat :=
  List.rec 0 (fun _ _ ih => ih + 1) l

/-- `dropN`. -/
def dropN (n : Nat) (l : Str) : Str :=
  Nat.rec (motive := fun _ => Str → Str)
    (fun s => s)
    (fun _ ih s =>
      match s with
      | [] => []
      | _ :: t => ih t)
    n l

/-- `takeN`. -/
def takeN (n : Nat) (l : Str) : Str :=
  Nat.rec (motive := fun _ => Str → Str)
    (fun _ => [])
    (fun _ ih s =>
      match s with
      | [] => []
      | c :: t => c :: ih t)
    n l

/-- `takeNWhile`. -/
def takeWhileL (p : Char → Bool) (l : Str) : Str :=
  List.rec [] (fun c _ ih => if p c then c :: ih else []) l

/-- `List.isPrefixOf` (JavaScript `String.prototype.startsWith`): a failing
comparison stops at the first mismatching character. -/
def isPre (p : Str) : Str → Bool :=
  List.rec (motive := fun _ => Str → Bool)
    (fun _ => true)
    (fun a _ ih t =>
      match t with
      | [] => false
      | b :: bs => a == b && ih bs)
    p

/-- String equality test (`List.beq`). -/
def beqS (a : Str) : Str → Bool :=
  List.rec (motive := fun _ => Str → Bool)
    (fun t => t.isEmpty)
    (fun c _ ih t =>
      match t with
      | [] => false
      | d :: ds => c == d && ih ds)
    a

/-- JavaScript regexp `\s` (WhiteSpace ∪ LineTerminator). -/
def isWsChar (c : Char) : Bool :=
  c == ' ' || c == '\t' || c == '\n' || c == '\r' || c == '\x0b' || c == '\x0c' ||
  c.toNat == 0xa0 || c.toNat == 0x1680 ||
  (0x2000 ≤ c.toNat && c.toNat ≤ 0x200a) ||
  c.toNat == 0x2028 || c.toNat == 0x2029 || c.toNat == 0x202f ||
  c.toNat == 0x205f || c.toNat == 0x3000 || c.toNat == 0xfeff

/-- JavaScript regexp `\w` (ASCII word character). -/
def isWordChar (c : Char) : Bool :=
  ('a' ≤ c && c ≤ 'z') || ('A' ≤ c && c ≤ 'Z') || ('0' ≤ c && c ≤ '9') || c == '_'

/-- Word-character test on an optional character (absent counts as non-word). -/
def wordOpt : Option Char → Bool
  | none => false
  | some c => isWordChar c

/-- JavaScript `\b`: a word boundary lies between two (possibly absent)
characters iff exactly one of them is a word character. -/
def boundaryB (a b : Option Char) : Bool := wordOpt a != wordOpt b

/-- Number of leading JS-whitespace characters. -/
def wsCount (s : Str) : Nat :=
  List.rec 0 (fun c _ ih => if isWsChar c then ih + 1 else 0) s

/-- JavaScript `String.prototype.trim` (both ends, `\s`). -/
def jsTrim (s : Str) : Str :=
  ((s.dropWhile (fun c => isWsChar c)).reverse.dropWhile (fun c => isWsChar c)).reverse

/-- JavaScript `String.prototype.trimStart`. -/
def jsTrimStart (s : Str) : Str := s.dropWhile (fun c => isWsChar c)

/-- Does `pat` occur as a contiguous substring? -/
def hasSubstr (pat : Str) (s : Str) : Bool :=
  List.rec pat.isEmpty (fun c cs ih => isPre pat (c :: cs) || ih) s

theorem drop_cons_length_lt (k : Nat) (c : Char) (cs : Str) :
    (List.drop k cs).length < (c :: cs).length := by
  simp [List.length_drop]; omega

/-- Generic global-replace scanner.  `m s` inspects the current suffix and
returns `some (n, r)` to consume `n ≥ 1` characters and emit `r`, or `none`
to emit one character and move on — exactly the semantics of a JavaScript
global regex replace where `m` decides whether a match starts here. -/
def scanRepF (m : Str → Option (Nat × Str)) (fuel : Nat) : Str → Str :=
  Nat.rec (motive := fun _ => Str → Str)
    (fun s => s)
    (fun _ ih s =>
      match s with
      | [] => []
      | c :: cs =>
        match m (c :: cs) with
        | some (n, r) => r ++ ih (dropN (n - 1) cs)
        | none => c :: ih cs)
    fuel

def scanRep (m : Str → Option (Nat × Str)) (s : Str) : Str :=
  scanRepF m (lenL s) s

/-- Global-replace scanner that also tracks the previous character of the
original input (needed for `\b` and look-behind style patterns).  The matcher
returns the consumed length, the replacement and the new previous character
(the last character of the consumed original text). -/
def scanRepPF (m : Option Char → Str → Option (Nat × Str × Option Char))
    (fuel : Nat) : Option Char → Str → Str :=
  Nat.rec (motive := fun _ => Option Char → Str → Str)
    (fun _ s => s)
    (fun _ ih prev s =>
      match s with
      | [] => []
      | c :: cs =>
        match m prev (c :: cs) with
        | some (n, r, p) => r ++ ih p (dropN (n - 1) cs)
        | none => c :: ih (some c) cs)
    fuel

def scanRepP (m : Option Char → Str → Option (Nat × Str × Option Char))
    (prev : Option Char) (s : Str) : Str :=
  scanRepPF m (lenL s) prev s

/-- Matcher for a literal pattern (a regex with every metacharacter escaped). -/
def mLit (pat rep : Str) (s : Str) : Option (Nat × Str) :=
  if !pat.isEmpty && isPre pat s then some (lenL pat, rep) else none

/-- `String.prototype.replace` with a literal global regex. -/
def replaceAll (pat rep : Str) (s : Str) : Str := scanRep (mLit pat rep) s

/-- `String.prototype.replace` with a plain-string pattern: first occurrence
only. -/
def replaceFirst (pat rep : Str) (s : Str) : Str :=
  List.rec []
    (fun c cs ih =>
      if !pat.isEmpty && isPre pat (c :: cs) then
        rep ++ dropN (lenL pat - 1) cs
      else c :: ih)
    s

/-- Matcher for `lit₀\s*lit₁\s*…\s*litₙ → rep` (literals interleaved with
optional whitespace; no literal starts with a whitespace character, so the
greedy `\s*` never needs to backtrack).  Returns the consumed length. -/
def matchLitsWs : List Str → Str → Option Nat
  | [], _ => some 0
  | l :: ls, s =>
    if isPre l s then
      let s1 := dropN (lenL l) s
      match ls with
      | [] => some (lenL l)
      | _ =>
        let w := wsCount s1
        match matchLitsWs ls (dropN w s1) with
        | some n => some (lenL l + w + n)
        | none => none
    else none

def mLitsWs (lits : List Str) (rep : Str) (s : Str) : Option (Nat × Str) :=
  match matchLitsWs lits s with
  | some n => some (n, rep)
  | none => none

def replaceLitsWs (lits : List Str) (rep : Str) (s : Str) : Str :=
  scanRep (mLitsWs lits rep) s

/-- Matcher for `pre\s+ → rep` (literal then one-or-more whitespace). -/
def mLitWsPlus (pre rep : Str) (s : Str) : Option (Nat × Str) :=
  if isPre pre s then
    let w := wsCount (dropN (lenL pre) s)
    if w = 0 then none else some (lenL pre + w, rep)
  else none

/-- Matcher for `\s+(C) → C` with `C` a whitespace-free character class. -/
def mWsPlusClass (p : Char → Bool) (s : Str) : Option (Nat × Str) :=
  let w := wsCount s
  if w = 0 then none
  else
    match dropN w s with
    | [] => none
    | c :: _ => if p c then some (w + 1, [c]) else none

/-- Matcher for `(A)\s+ → A` with `A` a character class. -/
def mClassWsPlus (p : Char → Bool) (s : Str) : Option (Nat × Str) :=
  match s with
  | [] => none
  | c :: cs =>
    if p c then
      let w := wsCount cs
      if w = 0 then none else some (1 + w, [c])
    else none

/-- Matcher for `\s*(C)\s*` with a whitespace-free class `C`; the replacement
is built from the matched class character. -/
def mClassWsStar (p : Char → Bool) (mk : Char → Str) (s : Str) : Option (Nat × Str) :=
  let w1 := wsCount s
  match dropN w1 s with
  | [] => none
  | c :: cs =>
    if p c then
      let w2 := wsCount cs
      some (w1 + 1 + w2, mk c)
    else none

/-- Matcher for `(A)(B) → A␣B` (insert a space between two adjacent
characters from the given classes). -/
def mPair (pa pb : Char → Bool) (s : Str) : Option (Nat × Str) :=
  match s with
  | c1 :: c2 :: _ => if pa c1 && pb c2 then some (2, [c1, ' ', c2]) else none
  | _ => none

/-- Matcher for `\s{2,} → ␣`. -/
def mWs2 (s : Str) : Option (Nat × Str) :=
  let w := wsCount s
  if 2 ≤ w then some (w, [' ']) else none

/-- Matcher for `\s+ → ␣`. -/
def mWs1 (s : Str) : Option (Nat × Str) :=
  let w := wsCount s
  if 1 ≤ w then some (w, [' ']) else none

/-- Matcher for `([^\/])\s{2,}([^\/]) → $1␣$2`.  The greedy `\s{2,}` backtracks
when the character after the run is `/` (or absent): the last whitespace
character of the run then serves as `$2`, provided at least two remain. -/
def mNoSlashWs2 (s : Str) : Option (Nat × Str) :=
  match s with
  | [] => none
  | c1 :: cs =>
    if c1 == '/' then none
    else
      let w := wsCount cs
      if 2 ≤ w then
        match dropN w cs with
        | c2 :: _ =>
          if c2 == '/' then
            if 3 ≤ w then some (1 + w, [c1, ' '] ++ [(cs.take w).getLastD ' ']) else none
          else some (1 + w + 1, [c1, ' ', c2])
        | [] =>
          if 3 ≤ w then some (1 + w, [c1, ' '] ++ [(cs.take w).getLastD ' ']) else none
      else none

/-- Matcher for `=\s*> → =>` (broken arrow repair). -/
def mArrow (s : Str) : Option (Nat × Str) :=
  match s with
  | '=' :: cs =>
    let w := wsCount cs
    match dropN w cs with
    | '>' :: _ => some (1 + w + 1, str "=>")
    | _ => none
  | _ => none

/-- Matcher for `(https?): \/\/ → $1://` (greedy optional `s`, then the exact
text `: //`). -/
def mHttpScheme1 (s : Str) : Option (Nat × Str) :=
  if isPre (str "https: //") s then some (9, str "https://")
  else if isPre (str "http: //") s then some (8, str "http://")
  else none

/-- Matcher for `(https?):\/\/\s+ → $1://`. -/
def mHttpSchemeWs (s : Str) : Option (Nat × Str) :=
  if isPre (str "https://") s then
    let w := wsCount (dropN 8 s)
    if w = 0 then none else some (8 + w, str "https://")
  else if isPre (str "http://") s then
    let w := wsCount (dropN 7 s)
    if w = 0 then none else some (7 + w, str "http://")
  else none

/-- Matcher for `\s*=\s* → ␣=␣`. -/
def mEqSpace (s : Str) : Option (Nat × Str) :=
  mClassWsStar (fun c => c == '=') (fun _ => str " = ") s

/-- Matcher for a literal pattern wrapped in `\b…\b` boundaries (`bB`/`bA`
select which side carries a `\b`).  The new previous character after a match
is the last character of the consumed original text. -/
def mWordB (bB bA : Bool) (pat rep : Str) (prev : Option Char) (s : Str) :
    Option (Nat × Str × Option Char) :=
  if !pat.isEmpty && isPre pat s &&
     (!bB || boundaryB prev s.head?) &&
     (!bA || boundaryB pat.getLast? (dropN (lenL pat) s).head?) then
    some (lenL pat, rep, pat.getLast?)
  else none

/-- `replace` with regex `\bpat\b → rep` (global). -/
def replaceWordB (pat rep : Str) (s : Str) : Str :=
  scanRepP (mWordB true true pat rep) none s

/-- `replace` with regex `pat\b → rep` (boundary after only). -/
def replaceEndB (pat rep : Str) (s : Str) : Str :=
  scanRepP (mWordB false true pat rep) none s

/-- Matcher for `\b(kw₁|…|kwₙ)\( → kw␣(`: keyword list tried in order. -/
def mKwParen (kws : List Str) (prev : Option Char) (s : Str) :
    Option (Nat × Str × Option Char) :=
  match kws with
  | [] => none
  | k :: rest =>
    match mWordB true false (k ++ [ '(' ]) (k ++ [' ', '(']) prev s with
    | some r => some r
    | none => mKwParen rest prev s

/-- Matcher for `(\w+): → $1:␣` — equivalently, a `:` preceded by a word
character gets a space appended. -/
def mColonSpace (prev : Option Char) (s : Str) : Option (Nat × Str × Option Char) :=
  match s with
  | ':' :: _ => if wordOpt prev then some (1, str ": ", some ':') else none
  | _ => none

/-- Matcher for `{\s*([^{}]*?)\s*} → {␣$1␣}`: fires at a `{` whose next brace
is a `}`; the inner text is emitted trimmed. -/
def mBraceSpace (s : Str) : Option (Nat × Str) :=
  match s with
  | '\x7b' :: cs =>
    let inner := takeWhileL (fun c => !(c == '\x7b' || c == '\x7d')) cs
    match dropN (lenL inner) cs with
    | '\x7d' :: _ =>
      some (1 + lenL inner + 1, str "\x7b " ++ jsTrim inner ++ str " \x7d")
    | _ => none
  | _ => none

/-- Split on every occurrence of a (non-empty) separator, JavaScript
`String.prototype.split` style. -/
def jsSplitF (sep : Str) (fuel : Nat) : Str → List Str :=
  Nat.rec (motive := fun _ => Str → List Str)
    (fun s => [s])
    (fun _ ih s =>
      match s with
      | [] => [[]]
      | c :: cs =>
        if !sep.isEmpty && isPre sep (c :: cs) then
          [] :: ih (dropN (lenL sep - 1) cs)
        else
          match ih cs with
          | [] => [[c]]
          | p :: ps => (c :: p) :: ps)
    fuel

def jsSplit (sep : Str) (s : Str) : List Str := jsSplitF sep (lenL s) s

/-- JavaScript object-literal semantics for a raw key/value list with possible
duplicate keys: each key keeps its first position and its last value
(`Object.entries` order).  `Object.fromEntries` of swapped pairs follows the
same rule. -/
def objectEntries (raw : List (Str × Str)) : List (Str × Str) :=
  raw.foldl
    (fun acc kv =>
      if acc.any (fun e => beqS e.1 kv.1) then
        acc.map (fun e => if beqS e.1 kv.1 then (e.1, kv.2) else e)
      else acc ++ [kv])
    []

/-- Stable insertion used by the sorts below: `x` goes after every existing
element accepted by `keep`. -/
def insertAfter (keep : Str × Str → Str × Str → Bool) (x : Str × Str) :
    List (Str × Str) → List (Str × Str)
  | [] => [x]
  | y :: ys => if keep x y then y :: insertAfter keep x ys else x :: y :: ys

/-- Stable sort by key length, longest first (`sort((a, b) => b[0].length -
a[0].length)` with ECMAScript stable sort). -/
def sortLenDesc (l : List (Str × Str)) : List (Str × Str) :=
  l.foldl (fun acc x => insertAfter (fun x y => lenL x.1 ≤ lenL y.1) x acc) []

/-- Stable sort by key length, shortest first (`sort((a, b) => a[0].length -
b[0].length)`). -/
def sortLenAsc (l : List (Str × Str)) : List (Str × Str) :=
  l.foldl (fun acc x => insertAfter (fun x y => lenL y.1 ≤ lenL x.1) x acc) []

/-- The kanji dictionary object literal of dictionaries/kanji-dict.js, in source
order, duplicate keys included (JavaScript object-literal semantics are applied
by objectEntries below). -/
def kanjiDictRaw : List (Str × Str) := [
  (str "function", str "関"),
  (str "return", str "返"),
  (str "const", str "定"),
  (str "let", str "変"),
  (str "var", str "数"),
  (str "if", str "条"),
  (str "else", str "他"),
  (str "for", str "繰"),
  (str "while", str "間"),
  (str "try", str "試"),
  (str "catch", str "捕"),
  (str "throw", str "投"),
  (str "await", str "待"),
  (str "async", str "非"),
  (str "class", str "類"),
  (str "import", str "入"),
  (str "export", str "出"),
  (str "default", str "既"),
  (str "new", str "新"),
  (str "this", str "自"),
  (str "true", str "真"),
  (str "false", str "偽"),
  (str "null", str "無"),
  (str "undefined", str "未"),
  (str "super", str "親"),
  (str "static", str "静"),
  (str "extends", str "継"),
  (str "implements", str "実"),
  (str "Object", str "物"),
  (str "Array", str "列"),
  (str "String", str "文"),
  (str "Number", str "数"),
  (str "Boolean", str "論"),
  (str "Date", str "日"),
  (str "Math", str "算"),
  (str "console", str "示"),
  (str "log", str "録"),
  (str "error", str "誤"),
  (str "warn", str "警"),
  (str "info", str "知"),
  (str "JSON", str "換"),
  (str "Map", str "図"),
  (str "Set", str "組"),
  (str "Symbol", str "符"),
  (str "RegExp", str "式"),
  (str "require", str "要"),
  (str "module", str "組"),
  (str "exports", str "送"),
  (str "process", str "過"),
  (str "global", str "全"),
  (str "Buffer", str "緩"),
  (str "setTimeout", str "遅"),
  (str "setInterval", str "周"),
  (str "clearTimeout", str "取消"),
  (str "clearInterval", str "停止"),
  (str "__dirname", str "本処"),
  (str "__filename", str "本名"),
  (str "fs", str "書"),
  (str "readFile", str "読"),
  (str "writeFile", str "保"),
  (str "mkdir", str "創"),
  (str "stat", str "状"),
  (str "path", str "道"),
  (str "join", str "結"),
  (str "readdir", str "列挙"),
  (str "unlink", str "削除"),
  (str "rename", str "改名"),
  (str "stream", str "流"),
  (str "pipe", str "管"),
  (str "http", str "網"),
  (str "https", str "網安"),
  (str "request", str "求"),
  (str "response", str "答"),
  (str "server", str "供"),
  (str "client", str "客"),
  (str "router", str "路"),
  (str "route", str "経"),
  (str "get", str "取"),
  (str "post", str "送"),
  (str "put", str "置"),
  (str "delete", str "消"),
  (str "fetch", str "獲"),
  (str "headers", str "頭"),
  (str "status", str "態"),
  (str "method", str "法"),
  (str "protocol", str "規"),
  (str "express", str "速"),
  (str "app", str "応"),
  (str "middleware", str "中"),
  (str "static", str "固"),
  (str "session", str "会"),
  (str "cookie", str "点"),
  (str "body", str "体"),
  (str "params", str "引"),
  (str "query", str "問"),
  (str "router", str "路"),
  (str "controller", str "制"),
  (str "view", str "見"),
  (str "render", str "画"),
  (str "redirect", str "転"),
  (str "next", str "次"),
  (str "React", str "反"),
  (str "useState", str "状態"),
  (str "useEffect", str "効果"),
  (str "props", str "属性"),
  (str "component", str "部品"),
  (str "render", str "描画"),
  (str "Vue", str "景"),
  (str "Angular", str "角"),
  (str "Svelte", str "軽"),
  (str "template", str "型紙"),
  (str "style", str "様式"),
  (str "database", str "庫"),
  (str "connect", str "接"),
  (str "collection", str "集"),
  (str "document", str "件"),
  (str "model", str "型"),
  (str "schema", str "図"),
  (str "find", str "探"),
  (str "findOne", str "検"),
  (str "findById", str "索"),
  (str "save", str "存"),
  (str "update", str "更"),
  (str "remove", str "除"),
  (str "create", str "造"),
  (str "delete", str "削"),
  (str "query", str "詢"),
  (str "select", str "選"),
  (str "where", str "処"),
  (str "aggregate", str "集計"),
  (str "index", str "索引"),
  (str "transaction", str "取引"),
  (str "commit", str "確定"),
  (str "rollback", str "巻戻"),
  (str "mongoose", str "獏"),
  (str "ObjectId", str "物番"),
  (str "populate", str "充"),
  (str "table", str "表"),
  (str "join", str "結合"),
  (str "inner", str "内"),
  (str "outer", str "外"),
  (str "left", str "左"),
  (str "right", str "右"),
  (str "group", str "群"),
  (str "order", str "順"),
  (str "by", str "別"),
  (str "having", str "持"),
  (str "limit", str "限"),
  (str "offset", str "移"),
  (str "Promise", str "約"),
  (str "resolve", str "決"),
  (str "reject", str "否"),
  (str "then", str "続"),
  (str "catch", str "獲"),
  (str "finally", str "終"),
  (str "all", str "全部"),
  (str "race", str "競争"),
  (str "any", str "何"),
  (str "settled", str "解決"),
  (str "map", str "写"),
  (str "filter", str "濾"),
  (str "reduce", str "縮"),
  (str "forEach", str "各"),
  (str "some", str "一"),
  (str "every", str "皆"),
  (str "find", str "見"),
  (str "includes", str "含"),
  (str "push", str "添"),
  (str "pop", str "取"),
  (str "shift", str "抜"),
  (str "unshift", str "挿"),
  (str "slice", str "薄切"),
  (str "splice", str "接続"),
  (str "concat", str "連結"),
  (str "sort", str "並"),
  (str "reverse", str "逆"),
  (str "flat", str "平"),
  (str "flatMap", str "平写"),
  (str "split", str "割"),
  (str "join", str "繋"),
  (str "replace", str "換"),
  (str "match", str "合"),
  (str "slice", str "切"),
  (str "substring", str "部"),
  (str "trim", str "整"),
  (str "toLowerCase", str "低"),
  (str "toUpperCase", str "高"),
  (str "charAt", str "位置"),
  (str "indexOf", str "索引位置"),
  (str "startsWith", str "始"),
  (str "endsWith", str "終"),
  (str "padStart", str "前詰"),
  (str "padEnd", str "後詰"),
  (str "test", str "試験"),
  (str "describe", str "説明"),
  (str "it", str "例証"),
  (str "expect", str "期待"),
  (str "assert", str "断言"),
  (str "mock", str "模造"),
  (str "spy", str "諜"),
  (str "before", str "前"),
  (str "after", str "後"),
  (str "beforeEach", str "各前"),
  (str "afterEach", str "各後"),
  (str "data", str "資"),
  (str "result", str "果"),
  (str "options", str "選"),
  (str "config", str "設"),
  (str "user", str "者"),
  (str "item", str "品"),
  (str "index", str "位"),
  (str "key", str "鍵"),
  (str "value", str "値"),
  (str "name", str "名"),
  (str "id", str "番"),
  (str "file", str "件"),
  (str "url", str "所"),
  (str "path", str "跡"),
  (str "args", str "引数"),
  (str "params", str "引数"),
  (str "callback", str "呼戻"),
  (str "payload", str "積載"),
  (str "error", str "過誤"),
  (str "success", str "成功"),
  (str "failure", str "失敗"),
  (str "timeout", str "時限"),
  (str "event", str "事象"),
  (str "handler", str "処理者"),
  (str "message", str "信"),
  (str "length", str "長"),
  (str "typeof", str "型"),
  (str "instanceof", str "例"),
  (str "void", str "空"),
  (str "delete", str "除去"),
  (str "in", str "中間"),
  (str "of", str "所属"),
  (str "axios", str "送信"),
  (str "cheerio", str "解析"),
  (str "parse", str "解"),
  (str "scrape", str "収"),
  (str "extract", str "抽"),
  (str "selector", str "指"),
  (str "element", str "素"),
  (str "attribute", str "属"),
  (str "html", str "頁"),
  (str "text", str "字"),
  (str "DOM", str "構造"),
  (str "CSS", str "様式"),
  (str "xpath", str "経路"),
  (str "model", str "模型"),
  (str "train", str "訓練"),
  (str "predict", str "予測"),
  (str "classify", str "分類"),
  (str "cluster", str "集団"),
  (str "feature", str "特徴"),
  (str "label", str "標識"),
  (str "tensor", str "張量"),
  (str "vector", str "方向"),
  (str "matrix", str "行列")]

/-- The semantic pattern object literal of semantic-patterns.js, in source order. -/
def semanticPatternsRaw : List (Str × Str) := [
  (str "const $1 = require(\x27axios\x27);\nconst $2 = require(\x27cheerio\x27);\nconst $3 = require(\x27fs\x27);\nasync function $4($5, $6) \x7b\n  try \x7b\n    const \x7b data \x7d = await $1.get($5);\n    const $ = $2.load(data);\n    const $7 = $($8).text();\n    const $9 = $7.replace(/\\s+/g, \x27 \x27).trim();\n    $3.writeFileSync($6, $9);\n    console.log(\x60Content saved to $\x7b$6\x7d\x60);\n  \x7d catch ($10) \x7b\n    console.error(\x27Error:\x27, $10.message);\n  \x7d\n\x7d", str "웎.웏($4, $5, $6, $7, $8, $9)"),
  (str "async function $1($2) \x7b\n  try \x7b\n    const \x7b data \x7d = await axios.get($2);\n    const $ = cheerio.load(data);\n    const $3 = $($4).text();\n    return $3;\n  \x7d catch ($5) \x7b\n    console.error(\x27Error:\x27, $5.message);\n    throw $5;\n  \x7d\n\x7d", str "웎.ꪂ($1, $2, $3, $4)"),
  (str "async function $1($2) \x7b\n  try \x7b\n    const response = await axios.get($2);\n    return response.data;\n  \x7d catch ($3) \x7b\n    console.error(\x27Error:\x27, $3.message);\n    throw $3;\n  \x7d\n\x7d", str "웃($1, $2, $3)"),
  (str "async function $1($2, $3) \x7b\n  try \x7b\n    const response = await axios.post($2, $3);\n    return response.data;\n  \x7d catch ($4) \x7b\n    console.error(\x27Error:\x27, $4.message);\n    throw $4;\n  \x7d\n\x7d", str "웋($1, $2, $3, $4)"),
  (str "async function $1($2, $3) \x7b\n  const results = [];\n  let page = 1;\n  let hasMorePages = true;\n  \n  while (hasMorePages && page <= $3) \x7b\n    try \x7b\n      const url = \x60$\x7b$2\x7d?page=$\x7bpage\x7d\x60;\n      const \x7b data \x7d = await axios.get(url);\n      const $ = cheerio.load(data);\n      \n      const pageItems = $(\x27$4\x27).map((_i, el) => \x7b\n        const $item = $(el);\n        return \x7b\n          $5: $item.find(\x27$6\x27).text().trim(),\n          $7: $item.find(\x27$8\x27).attr(\x27$9\x27)\n        \x7d;\n      \x7d).get();\n      \n      results.push(...pageItems);\n      page++;\n      hasMorePages = pageItems.length > 0;\n    \x7d catch (error) \x7b\n      console.error(\x27Scraping error:\x27, error.message);\n      break;\n    \x7d\n  \x7d\n  \n  return results;\n\x7d", str "웎.页($1, $2, $3, \x27$4\x27, \x27$5\x27, \x27$6\x27, \x27$7\x27, \x27$8\x27, \x27$9\x27)"),
  (str "async function $1($2, $3) \x7b\n  const options = \x7b\n    method: \x27GET\x27,\n    headers: $3\n  \x7d;\n  \n  try \x7b\n    const response = await fetch($2, options);\n    if (!response.ok) \x7b\n      throw new Error(\x60HTTP error: $\x7bresponse.status\x7d\x60);\n    \x7d\n    const data = await response.json();\n    return data;\n  \x7d catch (error) \x7b\n    console.error(\x27Fetch error:\x27, error.message);\n    throw error;\n  \x7d\n\x7d", str "獲函($1, $2, $3)"),
  (str "const express = require(\x27express\x27);\nconst app = express();\nconst PORT = $1 || $2;\n\napp.use(express.json());\napp.use(express.urlencoded(\x7b extended: false \x7d));\n$3\napp.listen(PORT, () => \x7b\n  console.log(\x60Server running on port $\x7bPORT\x7d\x60);\n\x7d);", str "웒(express, app, $1, $2, $3)"),
  (str "app.get(\x27$1\x27, async (req, res) => \x7b\n  try \x7b\n    $2\n    return res.status(200).json($3);\n  \x7d catch (error) \x7b\n    console.error(\x27$4:\x27, error.message);\n    return res.status(500).json(\x7b error: \x27$5\x27 \x7d);\n  \x7d\n\x7d);", str "웓.웃(app, \x27$1\x27, $2, $3, \x27$4\x27, \x27$5\x27)"),
  (str "app.post(\x27$1\x27, async (req, res) => \x7b\n  try \x7b\n    const \x7b $2 \x7d = req.body;\n    $3\n    return res.status(201).json($4);\n  \x7d catch (error) \x7b\n    console.error(\x27$5:\x27, error.message);\n    return res.status(500).json(\x7b error: \x27$6\x27 \x7d);\n  \x7d\n\x7d);", str "웓.웋(app, \x27$1\x27, $2, $3, $4, \x27$5\x27, \x27$6\x27)"),
  (str "function $1(req, res, next) \x7b\n  $2\n  next();\n\x7d", str "웓.中($1, $2)"),
  (str "const express = require(\x27express\x27);\nconst router = express.Router();\n\n$1\n\nmodule.exports = router;", str "路由($1)"),
  (str "exports.$1 = async (req, res) => \x7b\n  try \x7b\n    $2\n    return res.status($3).json($4);\n  \x7d catch (error) \x7b\n    console.error(\x27$5:\x27, error.message);\n    return res.status(500).json(\x7b error: error.message \x7d);\n  \x7d\n\x7d", str "控($1, $2, $3, $4, \x27$5\x27)"),
  (str "function errorHandler(err, req, res, next) \x7b\n  const statusCode = res.statusCode === 200 ? 500 : res.statusCode;\n  res.status(statusCode);\n  res.json(\x7b\n    message: err.message,\n    stack: process.env.NODE_ENV === \x27production\x27 ? null : err.stack\n  \x7d);\n\x7d", str "捕手()"),
  (str "mongoose.connect(\x27$1\x27, \x7b\n  useNewUrlParser: true,\n  useUnifiedTopology: true$2\n\x7d)\n.then(() => console.log(\x27$3\x27))\n.catch(err => console.error(\x27$4:\x27, err));", str "Ⴞ(mongoose, \x27$1\x27, $2, \x27$3\x27, \x27$4\x27)"),
  (str "const $1Schema = new mongoose.Schema(\x7b\n  $2: \x7b\n    type: $3,\n    required: $4$5\n  \x7d,\n  $6: \x7b\n    type: $7,\n    default: $8$9\n  \x7d$10\n\x7d);\n\nconst $11 = mongoose.model(\x27$12\x27, $1Schema);", str "Ⴠ.Ⴡ($1, $2, $3, $4, $5, $6, $7, $8, $9, $10, $11, \x27$12\x27)"),
  (str "async function $1($2) \x7b\n  try \x7b\n    const $3 = await $4.find($2)$5;\n    return $3;\n  \x7d catch (error) \x7b\n    console.error(\x27$6:\x27, error.message);\n    throw error;\n  \x7d\n\x7d", str "Ⴚ($1, $2, $3, $4, $5, \x27$6\x27)"),
  (str "async function $1($2) \x7b\n  try \x7b\n    const $3 = new $4($2);\n    await $3.save();\n    return $3;\n  \x7d catch (error) \x7b\n    console.error(\x27$5:\x27, error.message);\n    throw error;\n  \x7d\n\x7d", str "Ⴛ($1, $2, $3, $4, \x27$5\x27)"),
  (str "async function $1($2, $3) \x7b\n  try \x7b\n    const $4 = await $5.findByIdAndUpdate($2, $3, \x7b new: true \x7d);\n    if (!$4) \x7b\n      throw new Error(\x27$6\x27);\n    \x7d\n    return $4;\n  \x7d catch (error) \x7b\n    console.error(\x27$7:\x27, error.message);\n    throw error;\n  \x7d\n\x7d", str "㎋($1, $2, $3, $4, $5, \x27$6\x27, \x27$7\x27)"),
  (str "async function $1($2) \x7b\n  try \x7b\n    const $3 = await $4.findByIdAndDelete($2);\n    if (!$3) \x7b\n      throw new Error(\x27$5\x27);\n    \x7d\n    return $3;\n  \x7d catch (error) \x7b\n    console.error(\x27$6:\x27, error.message);\n    throw error;\n  \x7d\n\x7d", str "㎌($1, $2, $3, $4, \x27$5\x27, \x27$6\x27)"),
  (str "async function $1($2) \x7b\n  let connection;\n  try \x7b\n    connection = await pool.getConnection();\n    const [rows] = await connection.execute(\x27$3\x27, $2);\n    return rows;\n  \x7d catch (error) \x7b\n    console.error(\x27$4:\x27, error.message);\n    throw error;\n  \x7d finally \x7b\n    if (connection) connection.release();\n  \x7d\n\x7d", str "㎐($1, $2, \x27$3\x27, \x27$4\x27)"),
  (str "function $1(\x7b $2 \x7d) \x7b\n  const [$3, set$4] = useState($5);\n  \n  $6\n  \n  return (\n    <div className=\"$7\">\n      $8\n    </div>\n  );\n\x7d", str "⚛($1, $2, $3, $4, $5, $6, \x27$7\x27, $8)"),
  (str "useEffect(() => \x7b\n  $1\n  \n  return () => \x7b\n    $2\n  \x7d;\n\x7d, [$3]);", str "⚛.⚙($1, $2, $3)"),
  (str "function use$1($2) \x7b\n  const [$3, set$4] = useState($5);\n  \n  useEffect(() => \x7b\n    $6\n    \n    return () => \x7b\n      $7\n    \x7d;\n  \x7d, [$8]);\n  \n  const $9 = useCallback(($10) => \x7b\n    $11\n  \x7d, [$12]);\n  \n  return \x7b $3, $9 \x7d;\n\x7d", str "⚛.◉($1, $2, $3, $4, $5, $6, $7, $8, $9, $10, $11, $12)"),
  (str "const $1Context = createContext();\n\nexport function $1Provider(\x7b children \x7d) \x7b\n  const [$2, set$3] = useState($4);\n  \n  $5\n  \n  const value = \x7b\n    $2,\n    $6\n  \x7d;\n  \n  return (\n    <$1Context.Provider value=\x7bvalue\x7d>\n      \x7bchildren\x7d\n    </$1Context.Provider>\n  );\n\x7d\n\nexport function use$1() \x7b\n  const context = useContext($1Context);\n  if (context === undefined) \x7b\n    throw new Error(\x27use$1 must be used within a $1Provider\x27);\n  \x7d\n  return context;\n\x7d", str "⚛.⚪($1, $2, $3, $4, $5, $6)"),
  (str "function $1($2) \x7b\n  return $2.map($3 => \x7b\n    $4\n    return $5;\n  \x7d);\n\x7d", str "༽($1, $2, $3, $4, $5)"),
  (str "function $1($2, $3) \x7b\n  return $2.filter($4 => \x7b\n    $5\n    return $6;\n  \x7d);\n\x7d", str "༻($1, $2, $3, $4, $5, $6)"),
  (str "function $1($2, $3) \x7b\n  return $2.reduce(($4, $5) => \x7b\n    $6\n    return $7;\n  \x7d, $3);\n\x7d", str "༼($1, $2, $3, $4, $5, $6, $7)"),
  (str "function $1($2) \x7b\n  return $2\n    .filter(item => item !== null && item !== undefined)\n    .map(item => \x7b\n      $3\n      return $4;\n    \x7d);\n\x7d", str "༿($1, $2, $3, $4)"),
  (str "function $1($2) \x7b\n  return $2\n    .filter($3 => $4)\n    .map($5 => \x7b\n      $6\n      return $7;\n    \x7d)\n    .reduce(($8, $9) => \x7b\n      $10\n      return $11;\n    \x7d, $12);\n\x7d", str "⌁($1, $2, $3, $4, $5, $6, $7, $8, $9, $10, $11, $12)"),
  (str "function $1($2, $3) \x7b\n  return $2.reduce(($4, $5) => \x7b\n    const key = $5[$3];\n    if (!$4[key]) \x7b\n      $4[key] = [];\n    \x7d\n    $4[key].push($5);\n    return $4;\n  \x7d, \x7b\x7d);\n\x7d", str "⩚($1, $2, $3, $4, $5)"),
  (str "function $1($2, $3 = 1) \x7b\n  return $3 > 0\n    ? $2.reduce(\n        (acc, val) => acc.concat(\n          Array.isArray(val) \n            ? $1(val, $3 - 1)\n            : val\n        ),\n        []\n      )\n    : $2.slice();\n\x7d", str "⩛($1, $2, $3)"),
  (str "async function $1($2) \x7b\n  try \x7b\n    $3\n    return $4;\n  \x7d catch (error) \x7b\n    console.error(\x27$5:\x27, error.message);\n    $6\n  \x7d\n\x7d", str "ᕮ.非($1, $2, $3, $4, \x27$5\x27, $6)"),
  (str "function $1($2) \x7b\n  try \x7b\n    $3\n    return $4;\n  \x7d catch (error) \x7b\n    console.error(\x27$5:\x27, error.message);\n    $6\n  \x7d\n\x7d", str "ᕮ($1, $2, $3, $4, \x27$5\x27, $6)"),
  (str "function $1($2) \x7b\n  if (!$2) \x7b\n    throw new Error(\x27$3\x27);\n  \x7d\n  if (typeof $2 !== \x27$4\x27) \x7b\n    throw new Error(\x27$5\x27);\n  \x7d\n  $6\n  return $7;\n\x7d", str "ᕯ($1, $2, \x27$3\x27, \x27$4\x27, \x27$5\x27, $6, $7)"),
  (str "class $1Error extends Error \x7b\n  constructor($2) \x7b\n    super($2);\n    this.name = \x27$1Error\x27;\n    $3\n  \x7d\n\x7d", str "ᕲ($1, $2, $3)"),
  (str "async function $1($2, \x7b maxRetries = 3, delay = 1000, factor = 2 \x7d = \x7b\x7d) \x7b\n  let lastError;\n  \n  for (let attempt = 0; attempt < maxRetries; attempt++) \x7b\n    try \x7b\n      return await $2();\n    \x7d catch (error) \x7b\n      console.warn(\x60Attempt $\x7battempt + 1\x7d/$3 failed:\x60, error.message);\n      lastError = error;\n      \n      const timeout = delay * Math.pow(factor, attempt);\n      await new Promise(resolve => setTimeout(resolve, timeout));\n    \x7d\n  \x7d\n  \n  throw lastError;\n\x7d", str "ᕦ($1, $2, $3)"),
  (str "function $1(req, res, next) \x7b\n  const token = req.header(\x27$2\x27);\n  if (!token) \x7b\n    return res.status(401).json(\x7b msg: \x27$3\x27 \x7d);\n  \x7d\n  try \x7b\n    const decoded = jwt.verify(token, \x27$4\x27);\n    req.$5 = decoded.$5;\n    next();\n  \x7d catch (err) \x7b\n    res.status(401).json(\x7b msg: \x27$6\x27 \x7d);\n  \x7d\n\x7d", str "월($1, \x27$2\x27, \x27$3\x27, \x27$4\x27, $5, \x27$6\x27)"),
  (str "async function $1(req, res) \x7b\n  const \x7b $2, $3 \x7d = req.body;\n  try \x7b\n    let $4 = await $5.findOne(\x7b $2 \x7d);\n    if (!$4) \x7b\n      return res.status(400).json(\x7b msg: \x27$6\x27 \x7d);\n    \x7d\n    const isMatch = await bcrypt.compare($3, $4.$3);\n    if (!isMatch) \x7b\n      return res.status(400).json(\x7b msg: \x27$7\x27 \x7d);\n    \x7d\n    const payload = \x7b\n      $8: $4.id\n    \x7d;\n    jwt.sign(payload, \x27$9\x27, \x7b expiresIn: $10 \x7d, (err, token) => \x7b\n      if (err) throw err;\n      res.json(\x7b token \x7d);\n    \x7d);\n  \x7d catch (err) \x7b\n    console.error(\x27$11:\x27, err.message);\n    res.status(500).send(\x27$12\x27);\n  \x7d\n\x7d", str "ꮚ($1, $2, $3, $4, $5, \x27$6\x27, \x27$7\x27, $8, \x27$9\x27, $10, \x27$11\x27, \x27$12\x27)"),
  (str "async function $1(req, res) \x7b\n  const \x7b $2, $3, $4 \x7d = req.body;\n\n  try \x7b\n    let user = await $5.findOne(\x7b $3 \x7d);\n    if (user) \x7b\n      return res.status(400).json(\x7b msg: \x27$6\x27 \x7d);\n    \x7d\n\n    user = new $5(\x7b\n      $2,\n      $3,\n      $4\n    \x7d);\n\n    const salt = await bcrypt.genSalt(10);\n    user.$4 = await bcrypt.hash(user.$4, salt);\n\n    await user.save();\n    \n    const payload = \x7b\n      user: \x7b\n        id: user.id\n      \x7d\n    \x7d;\n\n    jwt.sign(\n      payload,\n      \x27$7\x27,\n      \x7b expiresIn: $8 \x7d,\n      (err, token) => \x7b\n        if (err) throw err;\n        res.json(\x7b token \x7d);\n      \x7d\n    );\n  \x7d catch (err) \x7b\n    console.error(\x27$9:\x27, err.message);\n    res.status(500).send(\x27$10\x27);\n  \x7d\n\x7d", str "ꮑ($1, $2, $3, $4, $5, \x27$6\x27, \x27$7\x27, $8, \x27$9\x27, \x27$10\x27)"),
  (str "function $1(req, res) \x7b\n  const oauth2Client = new OAuth2Client(\n    process.env.$2_CLIENT_ID,\n    process.env.$2_CLIENT_SECRET,\n    \x27$3\x27\n  );\n\n  const authUrl = oauth2Client.generateAuthUrl(\x7b\n    access_type: \x27offline\x27,\n    scope: [\x27$4\x27, \x27$5\x27],\n    prompt: \x27consent\x27\n  \x7d);\n\n  res.redirect(authUrl);\n\x7d", str "ꮀ($1, $2, \x27$3\x27, \x27$4\x27, \x27$5\x27)"),
  (str "function $1($2) \x7b\n  try \x7b\n    const data = fs.readFileSync($2, \x27$3\x27);\n    return data;\n  \x7d catch (error) \x7b\n    console.error(\x27$4:\x27, error.message);\n    $5\n  \x7d\n\x7d", str "ꙮ($1, $2, \x27$3\x27, \x27$4\x27, $5)"),
  (str "function $1($2, $3) \x7b\n  try \x7b\n    fs.writeFileSync($2, $3);\n    console.log(\x60$4 $\x7b$2\x7d\x60);\n    return true;\n  \x7d catch (error) \x7b\n    console.error(\x27$5:\x27, error.message);\n    return false;\n  \x7d\n\x7d", str "웏($1, $2, $3, \x27$4\x27, \x27$5\x27)"),
  (str "function $1($2) \x7b\n  const results = [];\n  \n  function traverse(dir) \x7b\n    const files = fs.readdirSync(dir);\n    \n    for (const file of files) \x7b\n      const filePath = path.join(dir, file);\n      const stat = fs.statSync(filePath);\n      \n      if (stat.isDirectory()) \x7b\n        traverse(filePath);\n      \x7d else if ($3(file)) \x7b\n        results.push(filePath);\n      \x7d\n    \x7d\n  \x7d\n  \n  traverse($2);\n  return results;\n\x7d", str "꙰($1, $2, $3)"),
  (str "function $1($2, $3) \x7b\n  return new Promise((resolve, reject) => \x7b\n    const readStream = fs.createReadStream($2);\n    const writeStream = fs.createWriteStream($3);\n    \n    readStream.on(\x27error\x27, reject);\n    writeStream.on(\x27error\x27, reject);\n    writeStream.on(\x27finish\x27, resolve);\n    \n    readStream\n      .pipe($4)\n      .pipe(writeStream);\n  \x7d);\n\x7d", str "ꚛ($1, $2, $3, $4)"),
  (str "describe(\x27$1\x27, () => \x7b\n  beforeEach(() => \x7b\n    $2\n  \x7d);\n  \n  afterEach(() => \x7b\n    $3\n  \x7d);\n  \n  test(\x27$4\x27, () => \x7b\n    $5\n    expect($6).$7($8);\n  \x7d);\n  \n  test(\x27$9\x27, () => \x7b\n    $10\n    expect($11).$12($13);\n  \x7d);\n\x7d);", str "🧪($1, $2, $3, \x27$4\x27, $5, $6, $7, $8, \x27$9\x27, $10, $11, $12, $13)"),
  (str "describe(\x27$1\x27, function() \x7b\n  before(function() \x7b\n    $2\n  \x7d);\n  \n  after(function() \x7b\n    $3\n  \x7d);\n  \n  it(\x27$4\x27, function() \x7b\n    $5\n  \x7d);\n  \n  it(\x27$6\x27, function() \x7b\n    $7\n  \x7d);\n\x7d);", str "📋($1, $2, $3, \x27$4\x27, $5, \x27$6\x27, $7)"),
  (str "jest.mock(\x27$1\x27, () => (\x7b\n  $2: jest.fn().mockImplementation(($3) => \x7b\n    $4\n    return $5;\n  \x7d),\n  $6: jest.fn().mockResolvedValue($7)\n\x7d));", str "🔍($1, $2, $3, $4, $5, $6, $7)"),
  (str "function debounce(func, wait) \x7b\n  let timeout;\n  return function(...args) \x7b\n    const context = this;\n    clearTimeout(timeout);\n    timeout = setTimeout(() => \x7b\n      func.apply(context, args);\n    \x7d, wait);\n  \x7d;\n\x7d", str "⏱()"),
  (str "function throttle(func, limit) \x7b\n  let inThrottle;\n  return function(...args) \x7b\n    const context = this;\n    if (!inThrottle) \x7b\n      func.apply(context, args);\n      inThrottle = true;\n      setTimeout(() => inThrottle = false, limit);\n    \x7d\n  \x7d;\n\x7d", str "⏲()"),
  (str "function deepClone(obj) \x7b\n  if (obj === null || typeof obj !== \x27object\x27) \x7b\n    return obj;\n  \x7d\n  \n  if (Array.isArray(obj)) \x7b\n    return obj.map(item => deepClone(item));\n  \x7d\n  \n  const cloned = \x7b\x7d;\n  for (const key in obj) \x7b\n    if (Object.prototype.hasOwnProperty.call(obj, key)) \x7b\n      cloned[key] = deepClone(obj[key]);\n    \x7d\n  \x7d\n  \n  return cloned;\n\x7d", str "📋()"),
  (str "function generateUUID() \x7b\n  return \x27xxxxxxxx-xxxx-4xxx-yxxx-xxxxxxxxxxxx\x27.replace(/[xy]/g, function(c) \x7b\n    const r = Math.random() * 16 | 0;\n    const v = c === \x27x\x27 ? r : (r & 0x3 | 0x8);\n    return v.toString(16);\n  \x7d);\n\x7d", str "🆔()")]

/-! ## Character-tier compressor (js-kanji-compressor.js) -/

/-- Compression options of `js-kanji-compressor.compress`. -/
structure KOpts where
  removeComments : Bool
  preserveLineBreaks : Bool
deriving DecidableEq

/-- Default options of `js-kanji-compressor.compress` (comments preserved,
line breaks kept). -/
def kanjiCompressDefaults : KOpts := ⟨false, true⟩

/-- ECMAScript LineTerminator characters. -/
def isLineTerm (c : Char) : Bool :=
  c == '\n' || c == '\r' || c.toNat == 0x2028 || c.toNat == 0x2029

/-- Index of the first occurrence of `pat`. -/
def indexOfSub (pat : Str) : Str → Option Nat
  | [] => if pat.isEmpty then some 0 else none
  | c :: cs =>
    if isPre pat (c :: cs) then some 0
    else (indexOfSub pat cs).map (· + 1)

/-- Matcher for `\/\/.*$` (m-flag): a `//` comment to the end of its line. -/
def mLineComment (rep : Str → Str) (s : Str) : Option (Nat × Str) :=
  if isPre (str "//") s then
    let body := takeWhileL (fun c => !isLineTerm c) (dropN 2 s)
    some (2 + lenL body, rep body)
  else none

/-- Matcher for `\/\*[\s\S]*?\*\//` (lazy block comment), with a replacement
built from the whole matched text. -/
def mBlockComment (rep : Str → Str) (s : Str) : Option (Nat × Str) :=
  if isPre (str "/*") s then
    match indexOfSub (str "*/") (dropN 2 s) with
    | some i => some (2 + i + 2, rep (takeN (2 + i + 2) s))
    | none => none
  else none

/-- Last index accepted by `p`. -/
def lastIndexWhere (p : Char → Bool) (l : Str) : Option Nat :=
  (l.foldl (fun (st : Nat × Option Nat) c =>
    (st.1 + 1, if p c then some st.1 else st.2)) (0, none)).2

/-- `preprocess` of js-kanji-compressor.js. -/
def preprocess (code : Str) (options : KOpts) : Str :=
  let processed := code
  let processed :=
    if options.removeComments then
      let p1 := scanRep (mLineComment (fun _ => [])) processed
      scanRep (mBlockComment (fun _ => [])) p1
    else
      let p1 := scanRep (mBlockComment (fun m =>
        str "/*" ++
          scanRep mWs1 (jsTrim (dropN 2 (replaceFirst (str "*/") [] m))) ++
          str "*/")) processed
      scanRep (mLineComment (fun body => str "// " ++ body)) p1
  let processed :=
    if !options.preserveLineBreaks then
      scanRepP (fun prev s =>
        if prev = none || (prev.map isLineTerm).getD false then
          let run := takeWhileL (fun c => isWsChar c) s
          match lastIndexWhere (fun c => c == '\r' || c == '\n') run with
          | some j => some (j + 1, [], (run.take (j + 1)).getLast?)
          | none => none
        else none) none processed
    else processed
  let resultLines := (jsSplit (str "\n") processed).map (fun line =>
    if hasSubstr (str "//") line then
      let parts := jsSplit (str "//") line
      let code := parts.headD []
      let comment := parts.getD 1 []
      jsTrim (scanRep mWs2 code) ++ str " // " ++ jsTrim comment
    else jsTrim (scanRep mWs2 line))
  jsTrim (List.intercalate (str "\n") resultLines)

/-- The effective entry list of the kanji dictionary (`Object.entries` of the
literal with duplicate keys resolved).  Precomputed value of
`objectEntries kanjiDictRaw`, certified below by `kanjiDict_spec`. -/
def kanjiDict : List (Str × Str) := [
  (str "function", str "関"),
  (str "return", str "返"),
  (str "const", str "定"),
  (str "let", str "変"),
  (str "var", str "数"),
  (str "if", str "条"),
  (str "else", str "他"),
  (str "for", str "繰"),
  (str "while", str "間"),
  (str "try", str "試"),
  (str "catch", str "獲"),
  (str "throw", str "投"),
  (str "await", str "待"),
  (str "async", str "非"),
  (str "class", str "類"),
  (str "import", str "入"),
  (str "export", str "出"),
  (str "default", str "既"),
  (str "new", str "新"),
  (str "this", str "自"),
  (str "true", str "真"),
  (str "false", str "偽"),
  (str "null", str "無"),
  (str "undefined", str "未"),
  (str "super", str "親"),
  (str "static", str "固"),
  (str "extends", str "継"),
  (str "implements", str "実"),
  (str "Object", str "物"),
  (str "Array", str "列"),
  (str "String", str "文"),
  (str "Number", str "数"),
  (str "Boolean", str "論"),
  (str "Date", str "日"),
  (str "Math", str "算"),
  (str "console", str "示"),
  (str "log", str "録"),
  (str "error", str "過誤"),
  (str "warn", str "警"),
  (str "info", str "知"),
  (str "JSON", str "換"),
  (str "Map", str "図"),
  (str "Set", str "組"),
  (str "Symbol", str "符"),
  (str "RegExp", str "式"),
  (str "require", str "要"),
  (str "module", str "組"),
  (str "exports", str "送"),
  (str "process", str "過"),
  (str "global", str "全"),
  (str "Buffer", str "緩"),
  (str "setTimeout", str "遅"),
  (str "setInterval", str "周"),
  (str "clearTimeout", str "取消"),
  (str "clearInterval", str "停止"),
  (str "__dirname", str "本処"),
  (str "__filename", str "本名"),
  (str "fs", str "書"),
  (str "readFile", str "読"),
  (str "writeFile", str "保"),
  (str "mkdir", str "創"),
  (str "stat", str "状"),
  (str "path", str "跡"),
  (str "join", str "繋"),
  (str "readdir", str "列挙"),
  (str "unlink", str "削除"),
  (str "rename", str "改名"),
  (str "stream", str "流"),
  (str "pipe", str "管"),
  (str "http", str "網"),
  (str "https", str "網安"),
  (str "request", str "求"),
  (str "response", str "答"),
  (str "server", str "供"),
  (str "client", str "客"),
  (str "router", str "路"),
  (str "route", str "経"),
  (str "get", str "取"),
  (str "post", str "送"),
  (str "put", str "置"),
  (str "delete", str "除去"),
  (str "fetch", str "獲"),
  (str "headers", str "頭"),
  (str "status", str "態"),
  (str "method", str "法"),
  (str "protocol", str "規"),
  (str "express", str "速"),
  (str "app", str "応"),
  (str "middleware", str "中"),
  (str "session", str "会"),
  (str "cookie", str "点"),
  (str "body", str "体"),
  (str "params", str "引数"),
  (str "query", str "詢"),
  (str "controller", str "制"),
  (str "view", str "見"),
  (str "render", str "描画"),
  (str "redirect", str "転"),
  (str "next", str "次"),
  (str "React", str "反"),
  (str "useState", str "状態"),
  (str "useEffect", str "効果"),
  (str "props", str "属性"),
  (str "component", str "部品"),
  (str "Vue", str "景"),
  (str "Angular", str "角"),
  (str "Svelte", str "軽"),
  (str "template", str "型紙"),
  (str "style", str "様式"),
  (str "database", str "庫"),
  (str "connect", str "接"),
  (str "collection", str "集"),
  (str "document", str "件"),
  (str "model", str "模型"),
  (str "schema", str "図"),
  (str "find", str "見"),
  (str "findOne", str "検"),
  (str "findById", str "索"),
  (str "save", str "存"),
  (str "update", str "更"),
  (str "remove", str "除"),
  (str "create", str "造"),
  (str "select", str "選"),
  (str "where", str "処"),
  (str "aggregate", str "集計"),
  (str "index", str "位"),
  (str "transaction", str "取引"),
  (str "commit", str "確定"),
  (str "rollback", str "巻戻"),
  (str "mongoose", str "獏"),
  (str "ObjectId", str "物番"),
  (str "populate", str "充"),
  (str "table", str "表"),
  (str "inner", str "内"),
  (str "outer", str "外"),
  (str "left", str "左"),
  (str "right", str "右"),
  (str "group", str "群"),
  (str "order", str "順"),
  (str "by", str "別"),
  (str "having", str "持"),
  (str "limit", str "限"),
  (str "offset", str "移"),
  (str "Promise", str "約"),
  (str "resolve", str "決"),
  (str "reject", str "否"),
  (str "then", str "続"),
  (str "finally", str "終"),
  (str "all", str "全部"),
  (str "race", str "競争"),
  (str "any", str "何"),
  (str "settled", str "解決"),
  (str "map", str "写"),
  (str "filter", str "濾"),
  (str "reduce", str "縮"),
  (str "forEach", str "各"),
  (str "some", str "一"),
  (str "every", str "皆"),
  (str "includes", str "含"),
  (str "push", str "添"),
  (str "pop", str "取"),
  (str "shift", str "抜"),
  (str "unshift", str "挿"),
  (str "slice", str "切"),
  (str "splice", str "接続"),
  (str "concat", str "連結"),
  (str "sort", str "並"),
  (str "reverse", str "逆"),
  (str "flat", str "平"),
  (str "flatMap", str "平写"),
  (str "split", str "割"),
  (str "replace", str "換"),
  (str "match", str "合"),
  (str "substring", str "部"),
  (str "trim", str "整"),
  (str "toLowerCase", str "低"),
  (str "toUpperCase", str "高"),
  (str "charAt", str "位置"),
  (str "indexOf", str "索引位置"),
  (str "startsWith", str "始"),
  (str "endsWith", str "終"),
  (str "padStart", str "前詰"),
  (str "padEnd", str "後詰"),
  (str "test", str "試験"),
  (str "describe", str "説明"),
  (str "it", str "例証"),
  (str "expect", str "期待"),
  (str "assert", str "断言"),
  (str "mock", str "模造"),
  (str "spy", str "諜"),
  (str "before", str "前"),
  (str "after", str "後"),
  (str "beforeEach", str "各前"),
  (str "afterEach", str "各後"),
  (str "data", str "資"),
  (str "result", str "果"),
  (str "options", str "選"),
  (str "config", str "設"),
  (str "user", str "者"),
  (str "item", str "品"),
  (str "key", str "鍵"),
  (str "value", str "値"),
  (str "name", str "名"),
  (str "id", str "番"),
  (str "file", str "件"),
  (str "url", str "所"),
  (str "args", str "引数"),
  (str "callback", str "呼戻"),
  (str "payload", str "積載"),
  (str "success", str "成功"),
  (str "failure", str "失敗"),
  (str "timeout", str "時限"),
  (str "event", str "事象"),
  (str "handler", str "処理者"),
  (str "message", str "信"),
  (str "length", str "長"),
  (str "typeof", str "型"),
  (str "instanceof", str "例"),
  (str "void", str "空"),
  (str "in", str "中間"),
  (str "of", str "所属"),
  (str "axios", str "送信"),
  (str "cheerio", str "解析"),
  (str "parse", str "解"),
  (str "scrape", str "収"),
  (str "extract", str "抽"),
  (str "selector", str "指"),
  (str "element", str "素"),
  (str "attribute", str "属"),
  (str "html", str "頁"),
  (str "text", str "字"),
  (str "DOM", str "構造"),
  (str "CSS", str "様式"),
  (str "xpath", str "経路"),
  (str "train", str "訓練"),
  (str "predict", str "予測"),
  (str "classify", str "分類"),
  (str "cluster", str "集団"),
  (str "feature", str "特徴"),
  (str "label", str "標識"),
  (str "tensor", str "張量"),
  (str "vector", str "方向"),
  (str "matrix", str "行列")]

/-- The dictionary entries in the order `applyKanjiSubstitution` applies them:
sorted by key length, longest first.  Precomputed value of
`sortLenDesc kanjiDict`, certified below by `sortedKanjiEntries_spec`. -/
def sortedKanjiEntries : List (Str × Str) := [
  (str "clearInterval", str "停止"),
  (str "clearTimeout", str "取消"),
  (str "setInterval", str "周"),
  (str "transaction", str "取引"),
  (str "toLowerCase", str "低"),
  (str "toUpperCase", str "高"),
  (str "implements", str "実"),
  (str "setTimeout", str "遅"),
  (str "__filename", str "本名"),
  (str "middleware", str "中"),
  (str "controller", str "制"),
  (str "collection", str "集"),
  (str "startsWith", str "始"),
  (str "beforeEach", str "各前"),
  (str "instanceof", str "例"),
  (str "undefined", str "未"),
  (str "__dirname", str "本処"),
  (str "writeFile", str "保"),
  (str "useEffect", str "効果"),
  (str "component", str "部品"),
  (str "aggregate", str "集計"),
  (str "substring", str "部"),
  (str "afterEach", str "各後"),
  (str "attribute", str "属"),
  (str "function", str "関"),
  (str "readFile", str "読"),
  (str "response", str "答"),
  (str "protocol", str "規"),
  (str "redirect", str "転"),
  (str "useState", str "状態"),
  (str "template", str "型紙"),
  (str "database", str "庫"),
  (str "document", str "件"),
  (str "findById", str "索"),
  (str "rollback", str "巻戻"),
  (str "mongoose", str "獏"),
  (str "ObjectId", str "物番"),
  (str "populate", str "充"),
  (str "includes", str "含"),
  (str "endsWith", str "終"),
  (str "padStart", str "前詰"),
  (str "describe", str "説明"),
  (str "callback", str "呼戻"),
  (str "selector", str "指"),
  (str "classify", str "分類"),
  (str "default", str "既"),
  (str "extends", str "継"),
  (str "Boolean", str "論"),
  (str "console", str "示"),
  (str "require", str "要"),
  (str "exports", str "送"),
  (str "process", str "過"),
  (str "readdir", str "列挙"),
  (str "request", str "求"),
  (str "headers", str "頭"),
  (str "express", str "速"),
  (str "session", str "会"),
  (str "Angular", str "角"),
  (str "connect", str "接"),
  (str "findOne", str "検"),
  (str "Promise", str "約"),
  (str "resolve", str "決"),
  (str "finally", str "終"),
  (str "settled", str "解決"),
  (str "forEach", str "各"),
  (str "unshift", str "挿"),
  (str "reverse", str "逆"),
  (str "flatMap", str "平写"),
  (str "replace", str "換"),
  (str "indexOf", str "索引位置"),
  (str "options", str "選"),
  (str "payload", str "積載"),
  (str "success", str "成功"),
  (str "failure", str "失敗"),
  (str "timeout", str "時限"),
  (str "handler", str "処理者"),
  (str "message", str "信"),
  (str "cheerio", str "解析"),
  (str "extract", str "抽"),
  (str "element", str "素"),
  (str "predict", str "予測"),
  (str "cluster", str "集団"),
  (str "feature", str "特徴"),
  (str "return", str "返"),
  (str "import", str "入"),
  (str "export", str "出"),
  (str "static", str "固"),
  (str "Object", str "物"),
  (str "String", str "文"),
  (str "Number", str "数"),
  (str "Symbol", str "符"),
  (str "RegExp", str "式"),
  (str "module", str "組"),
  (str "global", str "全"),
  (str "Buffer", str "緩"),
  (str "unlink", str "削除"),
  (str "rename", str "改名"),
  (str "stream", str "流"),
  (str "server", str "供"),
  (str "client", str "客"),
  (str "router", str "路"),
  (str "delete", str "除去"),
  (str "status", str "態"),
  (str "method", str "法"),
  (str "cookie", str "点"),
  (str "params", str "引数"),
  (str "render", str "描画"),
  (str "Svelte", str "軽"),
  (str "schema", str "図"),
  (str "update", str "更"),
  (str "remove", str "除"),
  (str "create", str "造"),
  (str "select", str "選"),
  (str "commit", str "確定"),
  (str "having", str "持"),
  (str "offset", str "移"),
  (str "reject", str "否"),
  (str "filter", str "濾"),
  (str "reduce", str "縮"),
  (str "splice", str "接続"),
  (str "concat", str "連結"),
  (str "charAt", str "位置"),
  (str "padEnd", str "後詰"),
  (str "expect", str "期待"),
  (str "assert", str "断言"),
  (str "before", str "前"),
  (str "result", str "果"),
  (str "config", str "設"),
  (str "length", str "長"),
  (str "typeof", str "型"),
  (str "scrape", str "収"),
  (str "tensor", str "張量"),
  (str "vector", str "方向"),
  (str "matrix", str "行列"),
  (str "const", str "定"),
  (str "while", str "間"),
  (str "catch", str "獲"),
  (str "throw", str "投"),
  (str "await", str "待"),
  (str "async", str "非"),
  (str "class", str "類"),
  (str "false", str "偽"),
  (str "super", str "親"),
  (str "Array", str "列"),
  (str "error", str "過誤"),
  (str "mkdir", str "創"),
  (str "https", str "網安"),
  (str "route", str "経"),
  (str "fetch", str "獲"),
  (str "query", str "詢"),
  (str "React", str "反"),
  (str "props", str "属性"),
  (str "style", str "様式"),
  (str "model", str "模型"),
  (str "where", str "処"),
  (str "index", str "位"),
  (str "table", str "表"),
  (str "inner", str "内"),
  (str "outer", str "外"),
  (str "right", str "右"),
  (str "group", str "群"),
  (str "order", str "順"),
  (str "limit", str "限"),
  (str "every", str "皆"),
  (str "shift", str "抜"),
  (str "slice", str "切"),
  (str "split", str "割"),
  (str "match", str "合"),
  (str "after", str "後"),
  (str "value", str "値"),
  (str "event", str "事象"),
  (str "axios", str "送信"),
  (str "parse", str "解"),
  (str "xpath", str "経路"),
  (str "train", str "訓練"),
  (str "label", str "標識"),
  (str "else", str "他"),
  (str "this", str "自"),
  (str "true", str "真"),
  (str "null", str "無"),
  (str "Date", str "日"),
  (str "Math", str "算"),
  (str "warn", str "警"),
  (str "info", str "知"),
  (str "JSON", str "換"),
  (str "stat", str "状"),
  (str "path", str "跡"),
  (str "join", str "繋"),
  (str "pipe", str "管"),
  (str "http", str "網"),
  (str "post", str "送"),
  (str "body", str "体"),
  (str "view", str "見"),
  (str "next", str "次"),
  (str "find", str "見"),
  (str "save", str "存"),
  (str "left", str "左"),
  (str "then", str "続"),
  (str "race", str "競争"),
  (str "some", str "一"),
  (str "push", str "添"),
  (str "sort", str "並"),
  (str "flat", str "平"),
  (str "trim", str "整"),
  (str "test", str "試験"),
  (str "mock", str "模造"),
  (str "data", str "資"),
  (str "user", str "者"),
  (str "item", str "品"),
  (str "name", str "名"),
  (str "file", str "件"),
  (str "args", str "引数"),
  (str "void", str "空"),
  (str "html", str "頁"),
  (str "text", str "字"),
  (str "let", str "変"),
  (str "var", str "数"),
  (str "for", str "繰"),
  (str "try", str "試"),
  (str "new", str "新"),
  (str "log", str "録"),
  (str "Map", str "図"),
  (str "Set", str "組"),
  (str "get", str "取"),
  (str "put", str "置"),
  (str "app", str "応"),
  (str "Vue", str "景"),
  (str "all", str "全部"),
  (str "any", str "何"),
  (str "map", str "写"),
  (str "pop", str "取"),
  (str "spy", str "諜"),
  (str "key", str "鍵"),
  (str "url", str "所"),
  (str "DOM", str "構造"),
  (str "CSS", str "様式"),
  (str "if", str "条"),
  (str "fs", str "書"),
  (str "by", str "別"),
  (str "it", str "例証"),
  (str "id", str "番"),
  (str "in", str "中間"),
  (str "of", str "所属")]

/-- `applyKanjiSubstitution`: dictionary keys sorted longest first, each
applied as a whole-word (`\b…\b`) global replacement. -/
def applyKanjiSubstitution (code : Str) : Str :=
  sortedKanjiEntries.foldl
    (fun result e => replaceWordB e.1 e.2 result) code

/-- The character class `[=+\-*/%&|^<>!?:;,{}[\]()]`. -/
def isPunct1 (c : Char) : Bool :=
  c == '=' || c == '+' || c == '-' || c == '*' || c == '/' || c == '%' ||
  c == '&' || c == '|' || c == '^' || c == '<' || c == '>' || c == '!' ||
  c == '?' || c == ':' || c == ';' || c == ',' || c == '\x7b' || c == '\x7d' ||
  c == '[' || c == ']' || c == '(' || c == ')'

/-- The character class `[{([,;]`. -/
def isOpenPunct (c : Char) : Bool :=
  c == '\x7b' || c == '(' || c == '[' || c == ',' || c == ';'

/-- The character class `[})\]]`. -/
def isClosePunct (c : Char) : Bool :=
  c == '\x7d' || c == ')' || c == ']'

/-- The five whitespace-tightening replacements shared by both branches of
`optimizeWhitespace`. -/
def optimizeOps (line : Str) : Str :=
  let l := scanRep (mClassWsStar isPunct1 (fun c => [c])) line
  let l := scanRep (mClassWsPlus isOpenPunct) l
  let l := scanRep (mWsPlusClass isClosePunct) l
  let l := scanRep (mClassWsStar (fun c => c == '.') (fun _ => str ".")) l
  replaceLitsWs [str ")", str "."] (str ").") l

/-- `optimizeWhitespace` of js-kanji-compressor.js. -/
def optimizeWhitespace (code : Str) (options : KOpts) : Str :=
  let optimizedLines := (jsSplit (str "\n") code).map (fun line =>
    if hasSubstr (str "//") line then
      let parts := jsSplit (str "//") line
      let codePart := parts.headD []
      let commentPart := parts.getD 1 []
      optimizeOps codePart ++ str " //" ++ commentPart
    else if hasSubstr (str "/*") line && !hasSubstr (str "*/") line then line
    else if hasSubstr (str "*/") line then line
    else if (jsTrimStart line).head? = some '*' then line
    else optimizeOps line)
  let result :=
    if options.preserveLineBreaks then List.intercalate (str "\n") optimizedLines
    else optimizedLines.foldl (· ++ ·) []
  jsTrim (scanRep mNoSlashWs2 result)

/-- `compress` of js-kanji-compressor.js (comment-preserving version). -/
def jsKanjiCompress (code : Str) (options : KOpts) : Str :=
  optimizeWhitespace (applyKanjiSubstitution (preprocess code options)) options

/-- `isKanjiCompressed`: does the text contain any character occurring in a
dictionary value? -/
def isKanjiCompressed (text : Str) : Bool :=
  let kanjiChars := kanjiDict.foldl (fun acc e => acc ++ e.2) []
  text.any (fun c => kanjiChars.contains c)

/-! ## Character-tier decompressor (js-kanji-decompressor.js) -/

/-- Decompression options. -/
structure DOpts where
  formatOutput : Bool
  preserveComments : Bool
deriving DecidableEq

/-- Default decompression options. -/
def decompressDefaults : DOpts := ⟨true, true⟩

/-- The special-case fixes applied first by `decompress` (lines 34–47). -/
def specialFixes (s : Str) : Str :=
  let s := replaceAll (str "送信.取") (str "axios.get") s
  let s := replaceAll (str ".pop") (str ".get") s
  let s := replaceLitsWs [str "網安:", str "//"] (str "https://") s
  let s := replaceLitsWs [str "網:", str "//"] (str "http://") s
  let s := replaceAll (str "件.") (str "document.") s
  let s := replaceAll (str "捕(") (str "catch(") s
  let s := replaceLitsWs [str "試", str "\x7b"] (str "try \x7b") s
  let s := replaceAll (str "獲(") (str "fetch(") s
  let s := replaceAll (str "各(") (str "forEach(") s
  let s := replaceAll (str "物.") (str "Object.") s
  let s := replaceEndB (str "者") (str "user") s
  let s := replaceAll (str "者-profile") (str "user-profile") s
  replaceAll (str "組 content 繰") (str "Set content for") s

/-- One match of `\/\/.*?(?=\n|$)|\/\*[\s\S]*?\*\//` at the current position
(its length), if any. -/
def mCommentAt (s : Str) : Option Nat :=
  if isPre (str "//") s then
    let body := takeWhileL (fun c => !isLineTerm c) (dropN 2 s)
    match dropN (2 + lenL body) s with
    | [] => some (2 + lenL body)
    | '\n' :: _ => some (2 + lenL body)
    | _ => none
  else if isPre (str "/*") s then
    match indexOfSub (str "*/") (dropN 2 s) with
    | some i => some (2 + i + 2)
    | none => none
  else none

/-- All comment matches, in scan order. -/
def findCommentsF (fuel : Nat) : Str → List Str :=
  Nat.rec (motive := fun _ => Str → List Str)
    (fun _ => [])
    (fun _ ih s =>
      match s with
      | [] => []
      | c :: cs =>
        match mCommentAt (c :: cs) with
        | some n => takeN n (c :: cs) :: ih (dropN (n - 1) cs)
        | none => ih cs)
    fuel

def findComments (s : Str) : List Str := findCommentsF (lenL s) s

/-- The comment placeholder `__COMMENT_i__`. -/
def commentMarker (i : Nat) : Str := str "__COMMENT_" ++ str (Nat.repr i) ++ str "__"

/-- `applyCommonFixes` of js-kanji-decompressor.js. -/
def applyCommonFixes (code : Str) : Str :=
  let s := scanRep mHttpSchemeWs code
  let s := replaceLitsWs [str "api.", str "example"] (str "api.example") s
  let s := scanRep (mLitWsPlus (str "/") (str "/")) s
  let s := replaceAll (str "$=") (str "$ =") s
  let s := replaceAll (str "=$") (str "= $") s
  let s := replaceAll (str "($") (str "($ ") s
  let s := replaceAll (str ",$") (str ", $") s
  let s := scanRep mArrow s
  let s := replaceLitsWs [str "Content", str "-", str "Type"] (str "Content-Type") s
  let s := replaceLitsWs [str "application", str "/", str "json"] (str "application/json") s
  let s := replaceAll (str "捕(") (str "catch(") s
  let s := replaceLitsWs [str "試", str "\x7b"] (str "try \x7b") s
  let s := replaceAll (str "獲(") (str "catch(") s
  let s := replaceLitsWs [str "fetch", str "(error)"] (str "catch (error)") s
  let s := replaceAll (str "各(") (str "forEach(") s
  let s := replaceAll (str "物.") (str "Object.") s
  let s := replaceAll (str "列.") (str "Array.") s
  let s := replaceWordB (str "Array.values") (str "Object.values") s
  let s := replaceAll (str "者 profile") (str "user profile") s
  let s := replaceAll (str "者-profile") (str "user-profile") s
  let s := replaceWordB (str "組 content 繰") (str "Set content for") s
  replaceWordB (str "者") (str "user") s

/-- The kanji→word glossary applied inside comments (identical battery at
decompressor lines 94–122 and processLine lines 283–310). -/
def commentGlossary (c0 : Str) : Str :=
  let s := replaceLitsWs [str "者", str "profile"] (str "user profile") c0
  let s := replaceAll (str "者-profile") (str "user-profile") s
  let s := replaceLitsWs [str "組", str "content", str "繰"] (str "Set content for") s
  let s := replaceWordB (str "者") (str "user") s
  let s := replaceAll (str "名") (str "name") s
  let s := replaceAll (str "物") (str "object") s
  let s := replaceAll (str "各") (str "forEach") s
  let s := replaceAll (str "件") (str "document") s
  let s := replaceAll (str "獲") (str "fetch") s
  let s := replaceAll (str "資") (str "data") s
  let s := replaceAll (str "素") (str "element") s
  let s := replaceAll (str "頭") (str "headers") s
  let s := replaceAll (str "答") (str "response") s
  let s := replaceAll (str "定") (str "const") s
  let s := replaceAll (str "條") (str "if") s
  let s := replaceAll (str "投") (str "throw") s
  let s := replaceAll (str "新") (str "new") s
  let s := replaceAll (str "態") (str "status") s
  let s := replaceAll (str "返") (str "return") s
  let s := replaceAll (str "関") (str "function") s
  let s := replaceAll (str "非") (str "async") s
  let s := replaceAll (str "日") (str "Date") s
  let s := replaceAll (str "試") (str "try") s
  let s := replaceAll (str "捕") (str "catch") s
  let s := replaceAll (str "過誤") (str "error") s
  let s := replaceAll (str "示") (str "console") s
  let s := replaceAll (str "信") (str "message") s
  replaceAll (str "網安") (str "https") s

/-- Character class of the comment kanji regex
`[一-鿿぀-ゟ゠-ヿ]`. -/
def isCjkComment (c : Char) : Bool :=
  (0x4E00 ≤ c.toNat && c.toNat ≤ 0x9FFF) ||
  (0x3040 ≤ c.toNat && c.toNat ≤ 0x309F) ||
  (0x30A0 ≤ c.toNat && c.toNat ≤ 0x30FF)

/-- Maximal runs matched by `[一-鿿぀-ゟ゠-ヿ]+`. -/
def findKanjiRunsF (fuel : Nat) : Str → List Str :=
  Nat.rec (motive := fun _ => Str → List Str)
    (fun _ => [])
    (fun _ ih s =>
      match s with
      | [] => []
      | c :: cs =>
        if isCjkComment c then
          let run := takeWhileL isCjkComment (c :: cs)
          run :: ih (dropN (lenL run - 1) cs)
        else ih cs)
    fuel

def findKanjiRuns (s : Str) : List Str := findKanjiRunsF (lenL s) s

/-- Translation applied to one preserved comment before re-insertion. -/
def translateComment (comment : Str) : Str :=
  let kanjiMatches := findKanjiRuns comment
  if lenL kanjiMatches > 0 then
    let t := commentGlossary comment
    kanjiMatches.foldl
      (fun t run =>
        if hasSubstr run t then
          match kanjiDict.find? (fun e => e.2 == run) with
          | some e => replaceAll run e.1 t
          | none => t
        else t) t
  else comment

/-- Keyword list of `\b(if|for|while|switch|catch|function|class)\(`. -/
def kwParenList : List Str :=
  [str "if", str "for", str "while", str "switch", str "catch",
   str "function", str "class"]

/-- Operator class `[\+\-\*\/\%\=\>\<\!\&\|\^\?]`. -/
def isOpChar (c : Char) : Bool :=
  c == '+' || c == '-' || c == '*' || c == '/' || c == '%' || c == '=' ||
  c == '>' || c == '<' || c == '!' || c == '&' || c == '|' || c == '^' || c == '?'

/-- The final language-term glossary of `processLine` (lines 332–355). -/
def processGlossary (l0 : Str) : Str :=
  let s := replaceWordB (str "者") (str "user") l0
  let s := replaceAll (str "名") (str "name") s
  let s := replaceAll (str "物") (str "object") s
  let s := replaceAll (str "件") (str "document") s
  let s := replaceLitsWs [str "組", str "content", str "繰"] (str "Set content for") s
  let s := replaceAll (str "素") (str "element") s
  let s := replaceAll (str "頭") (str "headers") s
  let s := replaceAll (str "答") (str "response") s
  let s := replaceAll (str "定") (str "const") s
  let s := replaceAll (str "條") (str "if") s
  let s := replaceAll (str "投") (str "throw") s
  let s := replaceAll (str "新") (str "new") s
  let s := replaceAll (str "態") (str "status") s
  let s := replaceAll (str "返") (str "return") s
  let s := replaceAll (str "関") (str "function") s
  let s := replaceAll (str "非") (str "async") s
  let s := replaceAll (str "日") (str "Date") s
  let s := replaceAll (str "試") (str "try") s
  let s := replaceAll (str "捕") (str "catch") s
  let s := replaceAll (str "過誤") (str "error") s
  let s := replaceAll (str "示") (str "console") s
  let s := replaceAll (str "信") (str "message") s
  replaceAll (str "網安") (str "https") s

/-- `processLine` steps before the inline-comment branch (lines 253–274). -/
def stepsA (line : Str) : Str :=
  let l := scanRep mHttpScheme1 line
  let l := scanRep (mLitWsPlus (str "/") (str "/")) l
  let l := replaceLitsWs [str "Content", str "-", str "Type"] (str "Content-Type") l
  let l := replaceLitsWs [str "application", str "/", str "json"] (str "application/json") l
  let l := replaceLitsWs [str "user", str "-", str "profile"] (str "user-profile") l
  let l := scanRep (mPair isWordChar isOpChar) l
  let l := scanRep (mPair isOpChar isWordChar) l
  let l := scanRep mEqSpace l
  let l := scanRep (mPair (fun c => c == ',') (fun c => !isWsChar c)) l
  let l := scanRepP (mKwParen kwParenList) none l
  let l := replaceLitsWs [str ")", str "\x7b"] (str ") \x7b") l
  scanRep mWs2 l

/-- `processLine` steps after the inline-comment branch (lines 318–355). -/
def stepsB (l0 : Str) : Str :=
  let l := scanRep mArrow l0
  let l := if hasSubstr (str "\x7b") l && hasSubstr (str ":") l then
             scanRepP mColonSpace none l else l
  let l := if hasSubstr (str "\x7b") l && hasSubstr (str "\x7d") l &&
              hasSubstr (str "=") l then
             scanRep mBraceSpace l else l
  processGlossary l

/-- `processLine` of js-kanji-decompressor.js.  On the inline-comment branch,
the recursive call `processLine(codePart)` is a call on comment-free text and
therefore equals `stepsB (stepsA codePart)`. -/
def processLine (line : Str) : Str :=
  let p := stepsA line
  if hasSubstr (str "//") p then
    let parts := jsSplit (str "//") p
    let codePart := parts.headD []
    let commentPart := commentGlossary (jsTrim (parts.getD 1 []))
    if !(jsTrim codePart).isEmpty then
      stepsB (stepsA codePart) ++ str " // " ++ commentPart
    else str "// " ++ commentPart
  else stepsB p

/-- Does a trimmed next line start one of
`^(function|class|if|for|while|switch)`? -/
def startsKw (nx : Str) : Bool :=
  [str "function", str "class", str "if", str "for", str "while",
   str "switch"].any (fun k => isPre k nx)

/-- The indentation/blank-line loop of `formatCode`. -/
def formatLines : List Str → Nat → List Str
  | [], _ => []
  | l :: rest, indentLevel =>
    let t := jsTrim l
    if t.isEmpty then formatLines rest indentLevel
    else
      let line := processLine t
      let lvl := if line.head? = some '\x7d' ∨ line.head? = some ']' then
                   indentLevel - 1 else indentLevel
      let indented := List.replicate (2 * lvl) ' ' ++ line
      let lvl2 := if line.getLast? = some '\x7b' ∨ line.getLast? = some '[' then
                    lvl + 1 else lvl
      let blank :=
        if line.getLast? = some ';' ∧ rest ≠ [] ∧
           (let nx := jsTrim (rest.headD []);
            isPre (str "//") nx ∨ startsKw nx) then
          [([] : Str)] else []
      indented :: (blank ++ formatLines rest lvl2)

/-- `formatCode` of js-kanji-decompressor.js. -/
def formatCode (code : Str) : Str :=
  List.intercalate (str "\n") (formatLines (jsSplit (str "\n") code) 0)

/-- The reverse dictionary (`Object.fromEntries` of swapped entries: each
replacement keeps its first position and maps to the last original).
Precomputed value of `objectEntries (kanjiDict.map (fun e => (e.2, e.1)))`,
certified below by `reverseDict_spec`. -/
def reverseDict : List (Str × Str) := [
  (str "関", str "function"),
  (str "返", str "return"),
  (str "定", str "const"),
  (str "変", str "let"),
  (str "数", str "Number"),
  (str "条", str "if"),
  (str "他", str "else"),
  (str "繰", str "for"),
  (str "間", str "while"),
  (str "試", str "try"),
  (str "獲", str "fetch"),
  (str "投", str "throw"),
  (str "待", str "await"),
  (str "非", str "async"),
  (str "類", str "class"),
  (str "入", str "import"),
  (str "出", str "export"),
  (str "既", str "default"),
  (str "新", str "new"),
  (str "自", str "this"),
  (str "真", str "true"),
  (str "偽", str "false"),
  (str "無", str "null"),
  (str "未", str "undefined"),
  (str "親", str "super"),
  (str "固", str "static"),
  (str "継", str "extends"),
  (str "実", str "implements"),
  (str "物", str "Object"),
  (str "列", str "Array"),
  (str "文", str "String"),
  (str "論", str "Boolean"),
  (str "日", str "Date"),
  (str "算", str "Math"),
  (str "示", str "console"),
  (str "録", str "log"),
  (str "過誤", str "error"),
  (str "警", str "warn"),
  (str "知", str "info"),
  (str "換", str "replace"),
  (str "図", str "schema"),
  (str "組", str "module"),
  (str "符", str "Symbol"),
  (str "式", str "RegExp"),
  (str "要", str "require"),
  (str "送", str "post"),
  (str "過", str "process"),
  (str "全", str "global"),
  (str "緩", str "Buffer"),
  (str "遅", str "setTimeout"),
  (str "周", str "setInterval"),
  (str "取消", str "clearTimeout"),
  (str "停止", str "clearInterval"),
  (str "本処", str "__dirname"),
  (str "本名", str "__filename"),
  (str "書", str "fs"),
  (str "読", str "readFile"),
  (str "保", str "writeFile"),
  (str "創", str "mkdir"),
  (str "状", str "stat"),
  (str "跡", str "path"),
  (str "繋", str "join"),
  (str "列挙", str "readdir"),
  (str "削除", str "unlink"),
  (str "改名", str "rename"),
  (str "流", str "stream"),
  (str "管", str "pipe"),
  (str "網", str "http"),
  (str "網安", str "https"),
  (str "求", str "request"),
  (str "答", str "response"),
  (str "供", str "server"),
  (str "客", str "client"),
  (str "路", str "router"),
  (str "経", str "route"),
  (str "取", str "pop"),
  (str "置", str "put"),
  (str "除去", str "delete"),
  (str "頭", str "headers"),
  (str "態", str "status"),
  (str "法", str "method"),
  (str "規", str "protocol"),
  (str "速", str "express"),
  (str "応", str "app"),
  (str "中", str "middleware"),
  (str "会", str "session"),
  (str "点", str "cookie"),
  (str "体", str "body"),
  (str "引数", str "args"),
  (str "詢", str "query"),
  (str "制", str "controller"),
  (str "見", str "find"),
  (str "描画", str "render"),
  (str "転", str "redirect"),
  (str "次", str "next"),
  (str "反", str "React"),
  (str "状態", str "useState"),
  (str "効果", str "useEffect"),
  (str "属性", str "props"),
  (str "部品", str "component"),
  (str "景", str "Vue"),
  (str "角", str "Angular"),
  (str "軽", str "Svelte"),
  (str "型紙", str "template"),
  (str "様式", str "CSS"),
  (str "庫", str "database"),
  (str "接", str "connect"),
  (str "集", str "collection"),
  (str "件", str "file"),
  (str "模型", str "model"),
  (str "検", str "findOne"),
  (str "索", str "findById"),
  (str "存", str "save"),
  (str "更", str "update"),
  (str "除", str "remove"),
  (str "造", str "create"),
  (str "選", str "options"),
  (str "処", str "where"),
  (str "集計", str "aggregate"),
  (str "位", str "index"),
  (str "取引", str "transaction"),
  (str "確定", str "commit"),
  (str "巻戻", str "rollback"),
  (str "獏", str "mongoose"),
  (str "物番", str "ObjectId"),
  (str "充", str "populate"),
  (str "表", str "table"),
  (str "内", str "inner"),
  (str "外", str "outer"),
  (str "左", str "left"),
  (str "右", str "right"),
  (str "群", str "group"),
  (str "順", str "order"),
  (str "別", str "by"),
  (str "持", str "having"),
  (str "限", str "limit"),
  (str "移", str "offset"),
  (str "約", str "Promise"),
  (str "決", str "resolve"),
  (str "否", str "reject"),
  (str "続", str "then"),
  (str "終", str "endsWith"),
  (str "全部", str "all"),
  (str "競争", str "race"),
  (str "何", str "any"),
  (str "解決", str "settled"),
  (str "写", str "map"),
  (str "濾", str "filter"),
  (str "縮", str "reduce"),
  (str "各", str "forEach"),
  (str "一", str "some"),
  (str "皆", str "every"),
  (str "含", str "includes"),
  (str "添", str "push"),
  (str "抜", str "shift"),
  (str "挿", str "unshift"),
  (str "切", str "slice"),
  (str "接続", str "splice"),
  (str "連結", str "concat"),
  (str "並", str "sort"),
  (str "逆", str "reverse"),
  (str "平", str "flat"),
  (str "平写", str "flatMap"),
  (str "割", str "split"),
  (str "合", str "match"),
  (str "部", str "substring"),
  (str "整", str "trim"),
  (str "低", str "toLowerCase"),
  (str "高", str "toUpperCase"),
  (str "位置", str "charAt"),
  (str "索引位置", str "indexOf"),
  (str "始", str "startsWith"),
  (str "前詰", str "padStart"),
  (str "後詰", str "padEnd"),
  (str "試験", str "test"),
  (str "説明", str "describe"),
  (str "例証", str "it"),
  (str "期待", str "expect"),
  (str "断言", str "assert"),
  (str "模造", str "mock"),
  (str "諜", str "spy"),
  (str "前", str "before"),
  (str "後", str "after"),
  (str "各前", str "beforeEach"),
  (str "各後", str "afterEach"),
  (str "資", str "data"),
  (str "果", str "result"),
  (str "設", str "config"),
  (str "者", str "user"),
  (str "品", str "item"),
  (str "鍵", str "key"),
  (str "値", str "value"),
  (str "名", str "name"),
  (str "番", str "id"),
  (str "所", str "url"),
  (str "呼戻", str "callback"),
  (str "積載", str "payload"),
  (str "成功", str "success"),
  (str "失敗", str "failure"),
  (str "時限", str "timeout"),
  (str "事象", str "event"),
  (str "処理者", str "handler"),
  (str "信", str "message"),
  (str "長", str "length"),
  (str "型", str "typeof"),
  (str "例", str "instanceof"),
  (str "空", str "void"),
  (str "中間", str "in"),
  (str "所属", str "of"),
  (str "送信", str "axios"),
  (str "解析", str "cheerio"),
  (str "解", str "parse"),
  (str "収", str "scrape"),
  (str "抽", str "extract"),
  (str "指", str "selector"),
  (str "素", str "element"),
  (str "属", str "attribute"),
  (str "頁", str "html"),
  (str "字", str "text"),
  (str "構造", str "DOM"),
  (str "経路", str "xpath"),
  (str "訓練", str "train"),
  (str "予測", str "predict"),
  (str "分類", str "classify"),
  (str "集団", str "cluster"),
  (str "特徴", str "feature"),
  (str "標識", str "label"),
  (str "張量", str "tensor"),
  (str "方向", str "vector"),
  (str "行列", str "matrix")]

/-- The reverse-map entry list in the order the live decompressor applies it:
sorted by replacement length, longest first (lines 68–70).  Precomputed value
of `sortLenDesc reverseDict`, certified below by `sortedRevEntries_spec`. -/
def sortedRevEntries : List (Str × Str) := [
  (str "索引位置", str "indexOf"),
  (str "処理者", str "handler"),
  (str "過誤", str "error"),
  (str "取消", str "clearTimeout"),
  (str "停止", str "clearInterval"),
  (str "本処", str "__dirname"),
  (str "本名", str "__filename"),
  (str "列挙", str "readdir"),
  (str "削除", str "unlink"),
  (str "改名", str "rename"),
  (str "網安", str "https"),
  (str "除去", str "delete"),
  (str "引数", str "args"),
  (str "描画", str "render"),
  (str "状態", str "useState"),
  (str "効果", str "useEffect"),
  (str "属性", str "props"),
  (str "部品", str "component"),
  (str "型紙", str "template"),
  (str "様式", str "CSS"),
  (str "模型", str "model"),
  (str "集計", str "aggregate"),
  (str "取引", str "transaction"),
  (str "確定", str "commit"),
  (str "巻戻", str "rollback"),
  (str "物番", str "ObjectId"),
  (str "全部", str "all"),
  (str "競争", str "race"),
  (str "解決", str "settled"),
  (str "接続", str "splice"),
  (str "連結", str "concat"),
  (str "平写", str "flatMap"),
  (str "位置", str "charAt"),
  (str "前詰", str "padStart"),
  (str "後詰", str "padEnd"),
  (str "試験", str "test"),
  (str "説明", str "describe"),
  (str "例証", str "it"),
  (str "期待", str "expect"),
  (str "断言", str "assert"),
  (str "模造", str "mock"),
  (str "各前", str "beforeEach"),
  (str "各後", str "afterEach"),
  (str "呼戻", str "callback"),
  (str "積載", str "payload"),
  (str "成功", str "success"),
  (str "失敗", str "failure"),
  (str "時限", str "timeout"),
  (str "事象", str "event"),
  (str "中間", str "in"),
  (str "所属", str "of"),
  (str "送信", str "axios"),
  (str "解析", str "cheerio"),
  (str "構造", str "DOM"),
  (str "経路", str "xpath"),
  (str "訓練", str "train"),
  (str "予測", str "predict"),
  (str "分類", str "classify"),
  (str "集団", str "cluster"),
  (str "特徴", str "feature"),
  (str "標識", str "label"),
  (str "張量", str "tensor"),
  (str "方向", str "vector"),
  (str "行列", str "matrix"),
  (str "関", str "function"),
  (str "返", str "return"),
  (str "定", str "const"),
  (str "変", str "let"),
  (str "数", str "Number"),
  (str "条", str "if"),
  (str "他", str "else"),
  (str "繰", str "for"),
  (str "間", str "while"),
  (str "試", str "try"),
  (str "獲", str "fetch"),
  (str "投", str "throw"),
  (str "待", str "await"),
  (str "非", str "async"),
  (str "類", str "class"),
  (str "入", str "import"),
  (str "出", str "export"),
  (str "既", str "default"),
  (str "新", str "new"),
  (str "自", str "this"),
  (str "真", str "true"),
  (str "偽", str "false"),
  (str "無", str "null"),
  (str "未", str "undefined"),
  (str "親", str "super"),
  (str "固", str "static"),
  (str "継", str "extends"),
  (str "実", str "implements"),
  (str "物", str "Object"),
  (str "列", str "Array"),
  (str "文", str "String"),
  (str "論", str "Boolean"),
  (str "日", str "Date"),
  (str "算", str "Math"),
  (str "示", str "console"),
  (str "録", str "log"),
  (str "警", str "warn"),
  (str "知", str "info"),
  (str "換", str "replace"),
  (str "図", str "schema"),
  (str "組", str "module"),
  (str "符", str "Symbol"),
  (str "式", str "RegExp"),
  (str "要", str "require"),
  (str "送", str "post"),
  (str "過", str "process"),
  (str "全", str "global"),
  (str "緩", str "Buffer"),
  (str "遅", str "setTimeout"),
  (str "周", str "setInterval"),
  (str "書", str "fs"),
  (str "読", str "readFile"),
  (str "保", str "writeFile"),
  (str "創", str "mkdir"),
  (str "状", str "stat"),
  (str "跡", str "path"),
  (str "繋", str "join"),
  (str "流", str "stream"),
  (str "管", str "pipe"),
  (str "網", str "http"),
  (str "求", str "request"),
  (str "答", str "response"),
  (str "供", str "server"),
  (str "客", str "client"),
  (str "路", str "router"),
  (str "経", str "route"),
  (str "取", str "pop"),
  (str "置", str "put"),
  (str "頭", str "headers"),
  (str "態", str "status"),
  (str "法", str "method"),
  (str "規", str "protocol"),
  (str "速", str "express"),
  (str "応", str "app"),
  (str "中", str "middleware"),
  (str "会", str "session"),
  (str "点", str "cookie"),
  (str "体", str "body"),
  (str "詢", str "query"),
  (str "制", str "controller"),
  (str "見", str "find"),
  (str "転", str "redirect"),
  (str "次", str "next"),
  (str "反", str "React"),
  (str "景", str "Vue"),
  (str "角", str "Angular"),
  (str "軽", str "Svelte"),
  (str "庫", str "database"),
  (str "接", str "connect"),
  (str "集", str "collection"),
  (str "件", str "file"),
  (str "検", str "findOne"),
  (str "索", str "findById"),
  (str "存", str "save"),
  (str "更", str "update"),
  (str "除", str "remove"),
  (str "造", str "create"),
  (str "選", str "options"),
  (str "処", str "where"),
  (str "位", str "index"),
  (str "獏", str "mongoose"),
  (str "充", str "populate"),
  (str "表", str "table"),
  (str "内", str "inner"),
  (str "外", str "outer"),
  (str "左", str "left"),
  (str "右", str "right"),
  (str "群", str "group"),
  (str "順", str "order"),
  (str "別", str "by"),
  (str "持", str "having"),
  (str "限", str "limit"),
  (str "移", str "offset"),
  (str "約", str "Promise"),
  (str "決", str "resolve"),
  (str "否", str "reject"),
  (str "続", str "then"),
  (str "終", str "endsWith"),
  (str "何", str "any"),
  (str "写", str "map"),
  (str "濾", str "filter"),
  (str "縮", str "reduce"),
  (str "各", str "forEach"),
  (str "一", str "some"),
  (str "皆", str "every"),
  (str "含", str "includes"),
  (str "添", str "push"),
  (str "抜", str "shift"),
  (str "挿", str "unshift"),
  (str "切", str "slice"),
  (str "並", str "sort"),
  (str "逆", str "reverse"),
  (str "平", str "flat"),
  (str "割", str "split"),
  (str "合", str "match"),
  (str "部", str "substring"),
  (str "整", str "trim"),
  (str "低", str "toLowerCase"),
  (str "高", str "toUpperCase"),
  (str "始", str "startsWith"),
  (str "諜", str "spy"),
  (str "前", str "before"),
  (str "後", str "after"),
  (str "資", str "data"),
  (str "果", str "result"),
  (str "設", str "config"),
  (str "者", str "user"),
  (str "品", str "item"),
  (str "鍵", str "key"),
  (str "値", str "value"),
  (str "名", str "name"),
  (str "番", str "id"),
  (str "所", str "url"),
  (str "信", str "message"),
  (str "長", str "length"),
  (str "型", str "typeof"),
  (str "例", str "instanceof"),
  (str "空", str "void"),
  (str "解", str "parse"),
  (str "収", str "scrape"),
  (str "抽", str "extract"),
  (str "指", str "selector"),
  (str "素", str "element"),
  (str "属", str "attribute"),
  (str "頁", str "html"),
  (str "字", str "text")]

/-- The reverse-map entry list in the order the legacy combined module
(`decompress` of the second file in part_006, lines 413–428) applies it:
sorted by replacement length, shortest first.  Precomputed value of
`sortLenAsc reverseDict`, certified below by `legacySortedRevEntries_spec`. -/
def legacySortedRevEntries : List (Str × Str) := [
  (str "関", str "function"),
  (str "返", str "return"),
  (str "定", str "const"),
  (str "変", str "let"),
  (str "数", str "Number"),
  (str "条", str "if"),
  (str "他", str "else"),
  (str "繰", str "for"),
  (str "間", str "while"),
  (str "試", str "try"),
  (str "獲", str "fetch"),
  (str "投", str "throw"),
  (str "待", str "await"),
  (str "非", str "async"),
  (str "類", str "class"),
  (str "入", str "import"),
  (str "出", str "export"),
  (str "既", str "default"),
  (str "新", str "new"),
  (str "自", str "this"),
  (str "真", str "true"),
  (str "偽", str "false"),
  (str "無", str "null"),
  (str "未", str "undefined"),
  (str "親", str "super"),
  (str "固", str "static"),
  (str "継", str "extends"),
  (str "実", str "implements"),
  (str "物", str "Object"),
  (str "列", str "Array"),
  (str "文", str "String"),
  (str "論", str "Boolean"),
  (str "日", str "Date"),
  (str "算", str "Math"),
  (str "示", str "console"),
  (str "録", str "log"),
  (str "警", str "warn"),
  (str "知", str "info"),
  (str "換", str "replace"),
  (str "図", str "schema"),
  (str "組", str "module"),
  (str "符", str "Symbol"),
  (str "式", str "RegExp"),
  (str "要", str "require"),
  (str "送", str "post"),
  (str "過", str "process"),
  (str "全", str "global"),
  (str "緩", str "Buffer"),
  (str "遅", str "setTimeout"),
  (str "周", str "setInterval"),
  (str "書", str "fs"),
  (str "読", str "readFile"),
  (str "保", str "writeFile"),
  (str "創", str "mkdir"),
  (str "状", str "stat"),
  (str "跡", str "path"),
  (str "繋", str "join"),
  (str "流", str "stream"),
  (str "管", str "pipe"),
  (str "網", str "http"),
  (str "求", str "request"),
  (str "答", str "response"),
  (str "供", str "server"),
  (str "客", str "client"),
  (str "路", str "router"),
  (str "経", str "route"),
  (str "取", str "pop"),
  (str "置", str "put"),
  (str "頭", str "headers"),
  (str "態", str "status"),
  (str "法", str "method"),
  (str "規", str "protocol"),
  (str "速", str "express"),
  (str "応", str "app"),
  (str "中", str "middleware"),
  (str "会", str "session"),
  (str "点", str "cookie"),
  (str "体", str "body"),
  (str "詢", str "query"),
  (str "制", str "controller"),
  (str "見", str "find"),
  (str "転", str "redirect"),
  (str "次", str "next"),
  (str "反", str "React"),
  (str "景", str "Vue"),
  (str "角", str "Angular"),
  (str "軽", str "Svelte"),
  (str "庫", str "database"),
  (str "接", str "connect"),
  (str "集", str "collection"),
  (str "件", str "file"),
  (str "検", str "findOne"),
  (str "索", str "findById"),
  (str "存", str "save"),
  (str "更", str "update"),
  (str "除", str "remove"),
  (str "造", str "create"),
  (str "選", str "options"),
  (str "処", str "where"),
  (str "位", str "index"),
  (str "獏", str "mongoose"),
  (str "充", str "populate"),
  (str "表", str "table"),
  (str "内", str "inner"),
  (str "外", str "outer"),
  (str "左", str "left"),
  (str "右", str "right"),
  (str "群", str "group"),
  (str "順", str "order"),
  (str "別", str "by"),
  (str "持", str "having"),
  (str "限", str "limit"),
  (str "移", str "offset"),
  (str "約", str "Promise"),
  (str "決", str "resolve"),
  (str "否", str "reject"),
  (str "続", str "then"),
  (str "終", str "endsWith"),
  (str "何", str "any"),
  (str "写", str "map"),
  (str "濾", str "filter"),
  (str "縮", str "reduce"),
  (str "各", str "forEach"),
  (str "一", str "some"),
  (str "皆", str "every"),
  (str "含", str "includes"),
  (str "添", str "push"),
  (str "抜", str "shift"),
  (str "挿", str "unshift"),
  (str "切", str "slice"),
  (str "並", str "sort"),
  (str "逆", str "reverse"),
  (str "平", str "flat"),
  (str "割", str "split"),
  (str "合", str "match"),
  (str "部", str "substring"),
  (str "整", str "trim"),
  (str "低", str "toLowerCase"),
  (str "高", str "toUpperCase"),
  (str "始", str "startsWith"),
  (str "諜", str "spy"),
  (str "前", str "before"),
  (str "後", str "after"),
  (str "資", str "data"),
  (str "果", str "result"),
  (str "設", str "config"),
  (str "者", str "user"),
  (str "品", str "item"),
  (str "鍵", str "key"),
  (str "値", str "value"),
  (str "名", str "name"),
  (str "番", str "id"),
  (str "所", str "url"),
  (str "信", str "message"),
  (str "長", str "length"),
  (str "型", str "typeof"),
  (str "例", str "instanceof"),
  (str "空", str "void"),
  (str "解", str "parse"),
  (str "収", str "scrape"),
  (str "抽", str "extract"),
  (str "指", str "selector"),
  (str "素", str "element"),
  (str "属", str "attribute"),
  (str "頁", str "html"),
  (str "字", str "text"),
  (str "過誤", str "error"),
  (str "取消", str "clearTimeout"),
  (str "停止", str "clearInterval"),
  (str "本処", str "__dirname"),
  (str "本名", str "__filename"),
  (str "列挙", str "readdir"),
  (str "削除", str "unlink"),
  (str "改名", str "rename"),
  (str "網安", str "https"),
  (str "除去", str "delete"),
  (str "引数", str "args"),
  (str "描画", str "render"),
  (str "状態", str "useState"),
  (str "効果", str "useEffect"),
  (str "属性", str "props"),
  (str "部品", str "component"),
  (str "型紙", str "template"),
  (str "様式", str "CSS"),
  (str "模型", str "model"),
  (str "集計", str "aggregate"),
  (str "取引", str "transaction"),
  (str "確定", str "commit"),
  (str "巻戻", str "rollback"),
  (str "物番", str "ObjectId"),
  (str "全部", str "all"),
  (str "競争", str "race"),
  (str "解決", str "settled"),
  (str "接続", str "splice"),
  (str "連結", str "concat"),
  (str "平写", str "flatMap"),
  (str "位置", str "charAt"),
  (str "前詰", str "padStart"),
  (str "後詰", str "padEnd"),
  (str "試験", str "test"),
  (str "説明", str "describe"),
  (str "例証", str "it"),
  (str "期待", str "expect"),
  (str "断言", str "assert"),
  (str "模造", str "mock"),
  (str "各前", str "beforeEach"),
  (str "各後", str "afterEach"),
  (str "呼戻", str "callback"),
  (str "積載", str "payload"),
  (str "成功", str "success"),
  (str "失敗", str "failure"),
  (str "時限", str "timeout"),
  (str "事象", str "event"),
  (str "中間", str "in"),
  (str "所属", str "of"),
  (str "送信", str "axios"),
  (str "解析", str "cheerio"),
  (str "構造", str "DOM"),
  (str "経路", str "xpath"),
  (str "訓練", str "train"),
  (str "予測", str "predict"),
  (str "分類", str "classify"),
  (str "集団", str "cluster"),
  (str "特徴", str "feature"),
  (str "標識", str "label"),
  (str "張量", str "tensor"),
  (str "方向", str "vector"),
  (str "行列", str "matrix"),
  (str "処理者", str "handler"),
  (str "索引位置", str "indexOf")]

/-- `decompress` of js-kanji-decompressor.js. -/
def decompress (kanjiCode : Str) (options : DOpts) : Except Str Str :=
  if kanjiCode.isEmpty then
    .error (str "Input code must be a non-empty string")
  else
    let opts := options
    let decompressed := specialFixes kanjiCode
    let comments := if opts.preserveComments then findComments decompressed else []
    let decompressed :=
      comments.enum.foldl (fun acc ic => replaceFirst ic.2 (commentMarker ic.1) acc)
        decompressed
    let decompressed :=
      sortedRevEntries.foldl (fun acc e => replaceAll e.1 e.2 acc) decompressed
    let decompressed := applyCommonFixes decompressed
    let decompressed :=
      if opts.preserveComments && comments.length > 0 then
        comments.enum.foldl
          (fun acc ic => replaceFirst (commentMarker ic.1) (translateComment ic.2) acc)
          decompressed
      else decompressed
    let decompressed := if opts.formatOutput then formatCode decompressed else decompressed
    .ok decompressed

/-! ## Token estimation (utils.js) -/

/-- `Math.ceil(n / 4)` on naturals. -/
def ceilDiv4 (n : Nat) : Nat := (n + 3) / 4

/-- `estimateTokens` of utils.js: plain `⌈length/4⌉`, or, in kanji mode, a
single ceiling over the count of characters with code ≤ 0xFF plus one token
per character with code > 0xFF. -/
def estimateTokens (text : Str) (isKanji : Bool) : Nat :=
  if !isKanji then ceilDiv4 (lenL text)
  else
    let latinChars := text.filter (fun c => c.toNat ≤ 0xFF)
    let latinTokens := ceilDiv4 (lenL latinChars)
    let kanjiChars := text.filter (fun c => !(c.toNat ≤ 0xFF))
    latinTokens + lenL kanjiChars

/-! ## Semantic-pattern engine and module API (semantic-kanji.js)

The escaping pipeline of `compressWithPatterns`
(`.replace(/\$/g, '\\$')` → `.replace(/[-\/\\^$*+?.()|[\]{}]/g, '\\$&')` →
`.replace(/\\\$(\d+)/g, '([\s\S]*?)')`) turns a template into a regex where
every non-placeholder character is an escaped literal and every `$n`
placeholder becomes the two-character regex `\\` followed by `([\s\S]*?)` —
that is, a *literal backslash* followed by a lazy capture group (the first of
the three backslashes produced for `$` survives the placeholder rewrite).  A
template therefore matches text that carries a literal `\` in front of each
captured argument.  A *bare* `$` (one not followed by digits) undergoes the
first two rewrites but not the third, ending as the two-character regex
`\\` `\$` — a literal backslash followed by a literal dollar sign in the
input.  The same pipeline is applied to the symbol string during
decompression. -/

/-- A segment of a synthesized pattern regex: an escaped literal chunk or a
lazy `([\s\S]*?)` capture group. -/
inductive Seg
  | lit : Str → Seg
  | cap : Seg
deriving DecidableEq

/-- ASCII digit test (`\d`). -/
def isDigitCh (c : Char) : Bool := '0' ≤ c && c ≤ '9'

/-- Parse a template/symbol string into regex segments: `$` followed by
digits becomes literal `\` plus a capture group, a bare `$` becomes the
two-character literal `\$`, everything else is literal. -/
def parseSegsF (fuel : Nat) : Str → Str → List Seg :=
  Nat.rec (motive := fun _ => Str → Str → List Seg)
    (fun racc s =>
      match s with
      | [] => if racc.isEmpty then [] else [.lit racc.reverse]
      | _ :: _ => [.lit (racc.reverse ++ s)])
    (fun _ ih racc s =>
      match s with
      | [] => if racc.isEmpty then [] else [.lit racc.reverse]
      | '$' :: cs =>
        let ds := takeWhileL isDigitCh cs
        if ds.isEmpty then ih ('$' :: '\\' :: racc) cs
        else .lit (racc.reverse ++ ['\\']) :: .cap :: ih [] (dropN (lenL ds) cs)
      | c :: cs => ih (c :: racc) cs)
    fuel

/-- Parse with an initially empty (reversed) literal accumulator. -/
def parseSegs (acc : Str) (s : Str) : List Seg := parseSegsF (lenL s) acc.reverse s

/-- Try `f` on `k, k+1, …` while fuel lasts, returning the first success. -/
def firstSome (f : Nat → Option α) (fuel : Nat) : Nat → Option α :=
  Nat.rec (motive := fun _ => Nat → Option α)
    (fun _ => none)
    (fun _ ih k =>
      match f k with
      | some r => some r
      | none => ih (k + 1))
    fuel

/-- Match a segment list at the head of `s`: literals must match exactly,
capture groups are lazy (shortest first).  Returns consumed length and the
captured strings in group order. -/
def matchSegs : List Seg → Str → Option (Nat × List Str)
  | [], _ => some (0, [])
  | .lit l :: segs, s =>
    if isPre l s then
      match matchSegs segs (dropN (lenL l) s) with
      | some (n, caps) => some (lenL l + n, caps)
      | none => none
    else none
  | .cap :: segs, s =>
    firstSome
      (fun k =>
        match matchSegs segs (dropN k s) with
        | some (n, caps) => some (k + n, takeN k s :: caps)
        | none => none)
      (lenL s + 1) 0

/-- The replacement built by the match callback: each capture is substituted
for `$`(index+1) in the output template, in capture order (note that the
global `\$1` replace also rewrites the `$1` inside a later `$10`, as in the
source). -/
def substCaps (out : Str) (caps : List Str) : Str :=
  caps.enum.foldl
    (fun acc ic => replaceAll ('$' :: str (Nat.repr (ic.1 + 1))) ic.2 acc) out

/-- One global pattern rewrite (`processedCode.replace(regex, callback)`). -/
def applyRuleF (segs : List Seg) (out : Str) (fuel : Nat) : Str → Str :=
  Nat.rec (motive := fun _ => Str → Str)
    (fun s => s)
    (fun _ ih s =>
      match s with
      | [] => []
      | c :: cs =>
        match matchSegs segs (c :: cs) with
        | some (n, caps) => substCaps out caps ++ ih (dropN (n - 1) cs)
        | none => c :: ih cs)
    fuel

def applyRule (segs : List Seg) (out : Str) (s : Str) : Str :=
  applyRuleF segs out (lenL s) s

/-- `Object.entries(semanticPatterns)`.  The pattern dictionary has no
duplicate keys, so the entry list is the raw list itself; `semanticEntries_spec`
certifies this against `objectEntries`. -/
def semanticEntries : List (Str × Str) := semanticPatternsRaw

/-- The entries the pattern loops actually process, in processing order
(entries whose key starts with `//` are skipped by the loop). -/
def patternApplicationOrder : List (Str × Str) :=
  semanticEntries.filter (fun e => !isPre (str "//") e.1)

/-- The anchor marker appended by semantic compression. -/
def anchorChar : Char := '⚓'

/-- `compressWithPatterns`: each pattern entry is applied sequentially (in
object order, skipping `//` keys), then standard kanji compression runs and
the anchor symbol is appended. -/
def compressWithPatterns (code : Str) (options : KOpts) : Str :=
  let processedCode := semanticEntries.foldl
    (fun acc e =>
      if isPre (str "//") e.1 then acc
      else applyRule (parseSegs [] e.1) e.2 acc) code
  jsKanjiCompress processedCode options ++ [anchorChar]

/-- `decompressWithPatterns`: strip a trailing anchor, run the character-tier
decompressor first, then expand each known symbol back into its template. -/
def decompressWithPatterns (code : Str) (options : DOpts) : Except Str Str :=
  let processed := if code.getLast? = some anchorChar then code.dropLast else code
  match decompress processed options with
  | .error e => .error e
  | .ok d =>
    .ok (semanticEntries.foldl
      (fun acc e =>
        if isPre (str "//") e.1 then acc
        else applyRule (parseSegs [] e.2) e.1 acc) d)

/-- The semantic marker characters of `isSemanticKanjiCompressed`. -/
def semanticMarkers : Str := str "웎웏웒웓ႾႠႡᕮᕯᕾⲮ웃웋ꪂꮚꙮ"

/-- `isSemanticKanjiCompressed` (instance method, line 240). -/
def isSemanticKanjiCompressed (code : Str) : Bool :=
  code.getLast? == some anchorChar || code.any (fun c => semanticMarkers.contains c)

/-- `detectCompressionMethod`: semantic markers first, then kanji characters,
otherwise an error. -/
def detectCompressionMethod (code : Str) : Except Str Str :=
  if isSemanticKanjiCompressed code then .ok (str "semantic-kanji")
  else if isKanjiCompressed code then .ok (str "kanji")
  else .error (str "Unable to determine compression method")

/-- `String(method).toLowerCase()` (ASCII range; the method names compared
against are all ASCII). -/
def jsToLower (s : Str) : Str :=
  s.map (fun c => if 'A' ≤ c && c ≤ 'Z' then Char.ofNat (c.toNat + 32) else c)

/-- The instance method `SemanticKanjiModule.compress` (lines 47–71): method
dispatch with an explicit `Unknown compression method` error. -/
def instanceCompress (code method : Str) (options : KOpts) : Except Str Str :=
  let methodStr := jsToLower method
  if methodStr = str "kanji" then .ok (jsKanjiCompress code options)
  else if methodStr = str "semantic-kanji" ∨ methodStr = str "semantic" then
    .ok (compressWithPatterns code options)
  else .error (str "Unknown compression method: " ++ methodStr)

/-- Dispatch of the instance `decompress` switch (lines 151–160). -/
def decompressDispatch (code : Str) (methodStr : Str) (options : DOpts) :
    Except Str Str :=
  if methodStr = str "kanji" then decompress code options
  else if methodStr = str "semantic-kanji" ∨ methodStr = str "semantic" then
    decompressWithPatterns code options
  else .error (str "Unknown compression method: " ++ methodStr)

/-- The instance method `SemanticKanjiModule.decompress` (lines 139–161):
`auto` runs the detector, whose failure propagates. -/
def instanceDecompress (code method : Str) (options : DOpts) : Except Str Str :=
  let methodStr := jsToLower method
  if methodStr = str "auto" then
    match detectCompressionMethod code with
    | .error e => .error e
    | .ok m => decompressDispatch code m options
  else decompressDispatch code methodStr options

/-- The static `SemanticKanjiModule.compress` (lines 551–566): any error is
caught and the call falls back to plain kanji compression. -/
def staticCompress (code method : Str) (options : KOpts) : Str :=
  match instanceCompress code method options with
  | .ok r => r
  | .error _ => jsKanjiCompress code options

/-- The static `SemanticKanjiModule.decompress` (lines 568–577): any error is
caught and the call falls back to the character-tier decompressor. -/
def staticDecompress (code method : Str) (options : DOpts) : Except Str Str :=
  match instanceDecompress code method options with
  | .ok r => .ok r
  | .error _ => decompress code options

/-- Character-tier round trip with explicit `kanji` method on both sides. -/
def roundtripKanji (text : Str) : Except Str Str :=
  match instanceCompress text (str "kanji") kanjiCompressDefaults with
  | .error e => .error e
  | .ok c => instanceDecompress c (str "kanji") decompressDefaults

/-- Semantic-tier round trip with explicit `semantic-kanji` method on both
sides. -/
def roundtripSemantic (text : Str) : Except Str Str :=
  match instanceCompress text (str "semantic-kanji") kanjiCompressDefaults with
  | .error e => .error e
  | .ok c => instanceDecompress c (str "semantic-kanji") decompressDefaults

/-! ## Definitions following the specification text (for comparison) -/

/-- Modelled from the spec: "If pattern-tier markers are present, first run
the pattern reversal sub-step … [then] run character-tier reversal" — the
composition with pattern expansion *before* the character-tier pass, the
order the spec prescribes (the pattern sub-step itself reuses the code's own
symbol-expansion loop). -/
def specOrderDecompressWithPatterns (code : Str) (options : DOpts) :
    Except Str Str :=
  let processed := if code.getLast? = some anchorChar then code.dropLast else code
  let expanded := semanticEntries.foldl
    (fun acc e =>
      if isPre (str "//") e.1 then acc
      else applyRule (parseSegs [] e.2) e.1 acc) processed
  decompress expanded options

/-- ASCII character (for the spec's token-cost model). -/
def isAsciiCh (c : Char) : Bool := c.toNat ≤ 0x7f

/-- Modelled from the spec: "ASCII runs cost ⌈length/4⌉, dense-script
(CJK/pattern-symbol) characters cost 1 each … the result being their sum" —
each maximal ASCII run is ceiled separately. -/
def specEstimatePerRunF (fuel : Nat) : Str → Nat :=
  Nat.rec (motive := fun _ => Str → Nat)
    (fun _ => 0)
    (fun _ ih s =>
      match s with
      | [] => 0
      | c :: cs =>
        if isAsciiCh c then
          let run := takeWhileL isAsciiCh (c :: cs)
          ceilDiv4 (lenL run) + ih (dropN (lenL run - 1) cs)
        else 1 + ih cs)
    fuel

def specEstimatePerRun (s : Str) : Nat := specEstimatePerRunF (lenL s) s

/-- Whitespace normalization, reading "runs collapsed" as runs replaced by a
single space. -/
def collapseWsRuns (s : Str) : Str := scanRep mWs1 s

/-- Whitespace normalization by removal (the normalization the repository's
own tests use: `str.replace(/\s+|⚓/g, '')` without the anchor part). -/
def stripWs (s : Str) : Str := s.filter (fun c => !isWsChar c)

/-- Is a list of naturals sorted in non-increasing order? -/
def isSortedDescNat : List Nat → Bool
  | [] => true
  | [_] => true
  | a :: b :: r => (b ≤ a : Bool) && isSortedDescNat (b :: r)

/-- Is a list of naturals sorted in non-decreasing order? -/
def isSortedAscNat : List Nat → Bool
  | [] => true
  | [_] => true
  | a :: b :: r => (a ≤ b : Bool) && isSortedAscNat (b :: r)

/-- Key lengths of an entry list. -/
def keyLens (l : List (Str × Str)) : List Nat := l.map (fun e => e.1.length)

/-! ## Concrete inputs and values used in the theorems below -/

/-- Equality of `Except` results is decidable componentwise. -/
instance : DecidableEq (Except Str Str) := fun a b =>
  match a, b with
  | .ok x, .ok y =>
    if h : x = y then isTrue (by rw [h]) else isFalse (by simp [h])
  | .error x, .error y =>
    if h : x = y then isTrue (by rw [h]) else isFalse (by simp [h])
  | .ok _, .error _ => isFalse (by simp)
  | .error _, .ok _ => isFalse (by simp)

/-- The concrete scenario input of the spec. -/
def c1Input : Str := str "function test() \x7b return 42; \x7d"

/-- What the character-tier round trip actually produces on `c1Input`. -/
def c1Output : Str := str "function test() \x7breturn 42;\x7d"

/-- The web-scraping-with-extraction template (second semantic pattern): its
target symbol `웎.ꪂ($1, $2, $3, $4)` omits `$5`, and the template reuses
`$2`, `$3` and `$5`, so it falls under the claim about omitted/reordered
placeholder numbers. -/
def scrapeTemplate : Str :=
  str "async function $1($2) \x7b\n  try \x7b\n    const \x7b data \x7d = await axios.get($2);\n    const $ = cheerio.load(data);\n    const $3 = $($4).text();\n    return $3;\n  \x7d catch ($5) \x7b\n    console.error(\x27Error:\x27, $5.message);\n    throw $5;\n  \x7d\n\x7d"

/-- The target symbol of `scrapeTemplate`. -/
def scrapeSymbol : Str := str "웎.ꪂ($1, $2, $3, $4)"

/-- Text matching the synthesized regex of `scrapeTemplate`: each placeholder
occurrence carries the literal backslash the regex demands, the two bare `$`
spots of the template carry the literal `\$` the double-escaping demands,
and the argument values are `$1 = f`, `$2 = u`, `$3 = r`, `$4 = s`,
`$5 = e`. -/
def t2Input : Str := str "async function \\f(\\u) \x7b\n  try \x7b\n    const \x7b data \x7d = await axios.get(\\u);\n    const \\$ = cheerio.load(data);\n    const \\r = \\$(\\s).text();\n    return \\r;\n  \x7d catch (\\e) \x7b\n    console.error(\x27Error:\x27, \\e.message);\n    throw \\e;\n  \x7d\n\x7d"

/-- What the semantic round trip actually produces on `t2Input`: the third
argument slot receives `$2`'s value, the fourth `$3`'s, and the values of
`$4` and `$5` are dropped; the template is never restored. -/
def t2Output : Str := str "웎.ꪂ(f, u, u, r)"

/-- What the claim requires the round trip to reproduce: every original
argument value at every template position of its placeholder number. -/
def t2Expected : Str :=
  str "async function f(u) \x7b\n  try \x7b\n    const \x7b data \x7d = await axios.get(u);\n    const $ = cheerio.load(data);\n    const r = $(s).text();\n    return r;\n  \x7d catch (e) \x7b\n    console.error(\x27Error:\x27, e.message);\n    throw e;\n  \x7d\n\x7d"

/-- The debounce utility template (a placeholder-free semantic pattern). -/
def debounceTemplate : Str :=
  str "function debounce(func, wait) \x7b\n  let timeout;\n  return function(...args) \x7b\n    const context = this;\n    clearTimeout(timeout);\n    timeout = setTimeout(() => \x7b\n      func.apply(context, args);\n    \x7d, wait);\n  \x7d;\n\x7d"

/-- The target symbol of `debounceTemplate`. -/
def debounceSymbol : Str := str "⏱()"

/-- `debounceTemplate` as reformatted by `formatCode` (a space appears after
`function` before `(...args)`), the value produced when character-tier
reversal runs *after* pattern expansion. -/
def debounceFormatted : Str :=
  str "function debounce(func, wait) \x7b\n  let timeout;\n  return function (...args) \x7b\n    const context = this;\n    clearTimeout(timeout);\n    timeout = setTimeout(() => \x7b\n      func.apply(context, args);\n    \x7d, wait);\n  \x7d;\n\x7d"

/-- ASCII letters and the space character: text over this alphabet contains
no dictionary replacement character and triggers none of the repair rules. -/
def isPlainChar (c : Char) : Bool :=
  ('a' ≤ c && c ≤ 'z') || ('A' ≤ c && c ≤ 'Z') || c == ' '

/-! ## General lemmas -/

set_option maxRecDepth 1000000

/-! ## The bare-recursor list helpers agree with the library functions -/

theorem lenL_eq (l : List α) : lenL l = l.length := by
  induction l with
  | nil => rfl
  | cons c t ih => rw [show lenL (c :: t) = lenL t + 1 from rfl, ih, List.length_cons]

theorem dropN_eq : ∀ (n : Nat) (l : Str), dropN n l = List.drop n l := by
  intro n
  induction n with
  | zero => intro l; rfl
  | succ k ih =>
    intro l
    cases l with
    | nil => rfl
    | cons c t => rw [show dropN (k + 1) (c :: t) = dropN k t from rfl, ih, List.drop_succ_cons]

theorem takeN_eq : ∀ (n : Nat) (l : Str), takeN n l = List.take n l := by
  intro n
  induction n with
  | zero => intro l; rfl
  | succ k ih =>
    intro l
    cases l with
    | nil => rfl
    | cons c t =>
      rw [show takeN (k + 1) (c :: t) = c :: takeN k t from rfl, ih, List.take_succ_cons]

theorem takeWhileL_eq (p : Char → Bool) : ∀ l : Str, takeWhileL p l = List.takeWhile p l := by
  intro l
  induction l with
  | nil => rfl
  | cons c t ih =>
    rw [show takeWhileL p (c :: t) = if p c then c :: takeWhileL p t else [] from rfl,
      List.takeWhile_cons, ih]

theorem isPre_eq : ∀ p s : Str, isPre p s = List.isPrefixOf p s := by
  intro p
  induction p with
  | nil => intro s; cases s <;> rfl
  | cons a as ih =>
    intro s
    cases s with
    | nil => rfl
    | cons b bs =>
      rw [show isPre (a :: as) (b :: bs) = (a == b && isPre as bs) from rfl, ih,
        List.isPrefixOf]

theorem wsCount_cons (c : Char) (cs : Str) :
    wsCount (c :: cs) = if isWsChar c then wsCount cs + 1 else 0 := rfl

theorem hasSubstr_cons (pat : Str) (c : Char) (cs : Str) :
    hasSubstr pat (c :: cs) = (isPre pat (c :: cs) || hasSubstr pat cs) := rfl

theorem mem_of_isPrefixOf {pat s : Str} (h : pat.isPrefixOf s = true) :
    ∀ c ∈ pat, c ∈ s :=
  fun _ hc => (List.isPrefixOf_iff_prefix.mp h).sublist.subset hc

theorem all_drop {p : Char → Bool} {s : Str} (n : Nat) (h : s.all p = true) :
    (List.drop n s).all p = true := by
  rw [List.all_eq_true] at *
  exact fun c hc => h c (List.drop_subset n s hc)

theorem isPrefixOf_false_of_bad {pat : Str} (_rep : Str)
    (hb : pat.any (fun c => !isPlainChar c) = true)
    {s : Str} (hs : s.all isPlainChar = true) : pat.isPrefixOf s = false := by
  cases hp : pat.isPrefixOf s with
  | false => rfl
  | true =>
    exfalso
    obtain ⟨c, hc, hcb⟩ := List.any_eq_true.mp hb
    have hplain := List.all_eq_true.mp hs c (mem_of_isPrefixOf hp c hc)
    rw [hplain] at hcb
    simp at hcb

theorem mLit_none {pat : Str} (rep : Str)
    (hb : pat.any (fun c => !isPlainChar c) = true)
    {s : Str} (hs : s.all isPlainChar = true) : mLit pat rep s = none := by
  unfold mLit
  rw [isPre_eq, isPrefixOf_false_of_bad rep hb hs]
  simp

theorem scanRepF_id {m : Str → Option (Nat × Str)}
    (hm : ∀ s : Str, s.all isPlainChar = true → m s = none) :
    ∀ (fuel : Nat) (s : Str), s.all isPlainChar = true → scanRepF m fuel s = s := by
  intro fuel
  induction fuel with
  | zero => intro s _; cases s <;> rfl
  | succ n ih =>
    intro s hs
    cases s with
    | nil => rfl
    | cons c cs =>
      have h2 : cs.all isPlainChar = true := (List.all_cons .. ▸ hs :
        (isPlainChar c && cs.all isPlainChar) = true) |> Bool.and_elim_right
      have e : scanRepF m (n + 1) (c :: cs) =
          match m (c :: cs) with
          | some (k, r) => r ++ scanRepF m n (dropN (k - 1) cs)
          | none => c :: scanRepF m n cs := rfl
      rw [e, hm (c :: cs) hs]
      exact congrArg (List.cons c) (ih cs h2)

theorem scanRep_id {m : Str → Option (Nat × Str)}
    (hm : ∀ s : Str, s.all isPlainChar = true → m s = none)
    {s : Str} (hs : s.all isPlainChar = true) : scanRep m s = s :=
  scanRepF_id hm (lenL s) s hs

theorem scanRepPF_id {m : Option Char → Str → Option (Nat × Str × Option Char)}
    (hm : ∀ (prev : Option Char) (s : Str), s.all isPlainChar = true →
      m prev s = none) :
    ∀ (fuel : Nat) (prev : Option Char) (s : Str), s.all isPlainChar = true →
      scanRepPF m fuel prev s = s := by
  intro fuel
  induction fuel with
  | zero => intro prev s _; cases s <;> rfl
  | succ n ih =>
    intro prev s hs
    cases s with
    | nil => rfl
    | cons c cs =>
      have h2 : cs.all isPlainChar = true := (List.all_cons .. ▸ hs :
        (isPlainChar c && cs.all isPlainChar) = true) |> Bool.and_elim_right
      have e : scanRepPF m (n + 1) prev (c :: cs) =
          match m prev (c :: cs) with
          | some (k, r, p) => r ++ scanRepPF m n p (dropN (k - 1) cs)
          | none => c :: scanRepPF m n (some c) cs := rfl
      rw [e, hm prev (c :: cs) hs]
      exact congrArg (List.cons c) (ih (some c) cs h2)

theorem replaceAll_id {pat : Str} (rep : Str)
    (hb : pat.any (fun c => !isPlainChar c) = true)
    {s : Str} (hs : s.all isPlainChar = true) : replaceAll pat rep s = s :=
  scanRep_id (fun _ hs' => mLit_none rep hb hs') hs

theorem all_of_isPrefixOf {pat s : Str} (hp : pat.isPrefixOf s = true)
    (hs : s.all isPlainChar = true) : pat.all isPlainChar = true := by
  rw [List.all_eq_true] at *
  exact fun c hc => hs c (mem_of_isPrefixOf hp c hc)

theorem matchLitsWs_none {lits : List Str}
    (hb : lits.any (fun l => l.any (fun c => !isPlainChar c)) = true) :
    ∀ s : Str, s.all isPlainChar = true → matchLitsWs lits s = none := by
  induction lits with
  | nil => simp at hb
  | cons l ls ih =>
    intro s hs
    unfold matchLitsWs
    simp only [isPre_eq, dropN_eq, lenL_eq]
    cases hp : l.isPrefixOf s with
    | false => simp
    | true =>
      have hlp : l.all isPlainChar = true := all_of_isPrefixOf hp hs
      have hbls : ls.any (fun l => l.any (fun c => !isPlainChar c)) = true := by
        obtain ⟨l', hl', hbad⟩ := List.any_eq_true.mp hb
        rcases List.mem_cons.mp hl' with h1 | h2
        · exfalso
          obtain ⟨c, hc, hcb⟩ := List.any_eq_true.mp (h1 ▸ hbad)
          have := List.all_eq_true.mp hlp c hc
          rw [this] at hcb; simp at hcb
        · exact List.any_eq_true.mpr ⟨l', h2, hbad⟩
      cases ls with
      | nil => simp at hbls
      | cons l2 ls2 =>
        simp only
        rw [ih hbls _ (all_drop _ (all_drop _ hs))]
        simp

theorem mLitsWs_none {lits : List Str} (rep : Str)
    (hb : lits.any (fun l => l.any (fun c => !isPlainChar c)) = true)
    {s : Str} (hs : s.all isPlainChar = true) : mLitsWs lits rep s = none := by
  unfold mLitsWs
  rw [matchLitsWs_none hb s hs]

theorem replaceLitsWs_id {lits : List Str} (rep : Str)
    (hb : lits.any (fun l => l.any (fun c => !isPlainChar c)) = true)
    {s : Str} (hs : s.all isPlainChar = true) : replaceLitsWs lits rep s = s :=
  scanRep_id (fun _ hs' => mLitsWs_none rep hb hs') hs

theorem mLitWsPlus_none {pre : Str} (rep : Str)
    (hb : pre.any (fun c => !isPlainChar c) = true)
    {s : Str} (hs : s.all isPlainChar = true) : mLitWsPlus pre rep s = none := by
  unfold mLitWsPlus
  rw [isPre_eq, isPrefixOf_false_of_bad rep hb hs]
  simp

theorem mHttpSchemeWs_none {s : Str} (hs : s.all isPlainChar = true) :
    mHttpSchemeWs s = none := by
  unfold mHttpSchemeWs
  simp only [isPre_eq]
  rw [isPrefixOf_false_of_bad [] (by decide) hs, isPrefixOf_false_of_bad [] (by decide) hs]
  simp

theorem mArrow_none {s : Str} (hs : s.all isPlainChar = true) :
    mArrow s = none := by
  unfold mArrow
  split
  · rename_i cs
    exfalso
    have h1 := List.all_eq_true.mp hs '=' (List.mem_cons_self _ _)
    simp [isPlainChar] at h1
  · rfl

theorem mWordB_none (bB bA : Bool) {pat : Str} (rep : Str)
    (hb : pat.any (fun c => !isPlainChar c) = true)
    (prev : Option Char) {s : Str} (hs : s.all isPlainChar = true) :
    mWordB bB bA pat rep prev s = none := by
  unfold mWordB
  rw [isPre_eq, isPrefixOf_false_of_bad rep hb hs]
  simp

theorem replaceWordB_id {pat : Str} (rep : Str)
    (hb : pat.any (fun c => !isPlainChar c) = true)
    {s : Str} (hs : s.all isPlainChar = true) : replaceWordB pat rep s = s :=
  scanRepPF_id (fun prev _ hs' => mWordB_none true true rep hb prev hs') (lenL s) none s hs

theorem replaceEndB_id {pat : Str} (rep : Str)
    (hb : pat.any (fun c => !isPlainChar c) = true)
    {s : Str} (hs : s.all isPlainChar = true) : replaceEndB pat rep s = s :=
  scanRepPF_id (fun prev _ hs' => mWordB_none false true rep hb prev hs') (lenL s) none s hs

theorem mCommentAt_none {s : Str} (hs : s.all isPlainChar = true) :
    mCommentAt s = none := by
  unfold mCommentAt
  simp only [isPre_eq]
  rw [isPrefixOf_false_of_bad [] (by decide) hs, isPrefixOf_false_of_bad [] (by decide) hs]
  simp

theorem findCommentsF_nil :
    ∀ (fuel : Nat) (s : Str), s.all isPlainChar = true → findCommentsF fuel s = [] := by
  intro fuel
  induction fuel with
  | zero => intro s _; cases s <;> rfl
  | succ n ih =>
    intro s hs
    cases s with
    | nil => rfl
    | cons c cs =>
      have h2 : cs.all isPlainChar = true := (List.all_cons .. ▸ hs :
        (isPlainChar c && cs.all isPlainChar) = true) |> Bool.and_elim_right
      have e : findCommentsF (n + 1) (c :: cs) =
          match mCommentAt (c :: cs) with
          | some k => takeN k (c :: cs) :: findCommentsF n (dropN (k - 1) cs)
          | none => findCommentsF n cs := rfl
      rw [e, mCommentAt_none hs]
      exact ih cs h2

theorem findComments_nil {s : Str} (hs : s.all isPlainChar = true) :
    findComments s = [] :=
  findCommentsF_nil (lenL s) s hs

theorem foldl_replaceAll_id {L : List (Str × Str)}
    (hb : L.all (fun e => e.1.any (fun c => !isPlainChar c)) = true)
    {s : Str} (hs : s.all isPlainChar = true) :
    L.foldl (fun acc e => replaceAll e.1 e.2 acc) s = s := by
  induction L with
  | nil => rfl
  | cons e L2 ih =>
    have h1 : e.1.any (fun c => !isPlainChar c) = true :=
      List.all_eq_true.mp hb e (List.mem_cons_self _ _)
    have h2 : L2.all (fun e => e.1.any (fun c => !isPlainChar c)) = true := by
      rw [List.all_eq_true] at *
      exact fun x hx => hb x (List.mem_cons_of_mem _ hx)
    simp only [List.foldl_cons]
    rw [replaceAll_id e.2 h1 hs]
    exact ih h2

theorem specialFixes_id {s : Str} (hs : s.all isPlainChar = true) :
    specialFixes s = s := by
  simp only [specialFixes]
  rw [replaceAll_id _ (by decide) hs, replaceAll_id _ (by decide) hs,
      replaceLitsWs_id _ (by decide) hs, replaceLitsWs_id _ (by decide) hs,
      replaceAll_id _ (by decide) hs, replaceAll_id _ (by decide) hs,
      replaceLitsWs_id _ (by decide) hs, replaceAll_id _ (by decide) hs,
      replaceAll_id _ (by decide) hs, replaceAll_id _ (by decide) hs,
      replaceEndB_id _ (by decide) hs, replaceAll_id _ (by decide) hs,
      replaceAll_id _ (by decide) hs]

theorem applyCommonFixes_id {s : Str} (hs : s.all isPlainChar = true) :
    applyCommonFixes s = s := by
  simp only [applyCommonFixes]
  rw [scanRep_id (fun _ h => mHttpSchemeWs_none h) hs,
      replaceLitsWs_id _ (by decide) hs,
      scanRep_id (fun _ h => mLitWsPlus_none _ (by decide) h) hs,
      replaceAll_id _ (by decide) hs, replaceAll_id _ (by decide) hs,
      replaceAll_id _ (by decide) hs, replaceAll_id _ (by decide) hs,
      scanRep_id (fun _ h => mArrow_none h) hs,
      replaceLitsWs_id _ (by decide) hs, replaceLitsWs_id _ (by decide) hs,
      replaceAll_id _ (by decide) hs, replaceLitsWs_id _ (by decide) hs,
      replaceAll_id _ (by decide) hs, replaceLitsWs_id _ (by decide) hs,
      replaceAll_id _ (by decide) hs, replaceAll_id _ (by decide) hs,
      replaceAll_id _ (by decide) hs,
      replaceWordB_id _ (by decide) hs,
      replaceAll_id _ (by decide) hs, replaceAll_id _ (by decide) hs,
      replaceWordB_id _ (by decide) hs,
      replaceWordB_id _ (by decide) hs]

theorem decompress_plain {s : Str} (hne : s ≠ [])
    (hs : s.all isPlainChar = true) :
    decompress s ⟨false, true⟩ = .ok s := by
  have hie : s.isEmpty = false := by
    cases s with
    | nil => exact absurd rfl hne
    | cons c cs => rfl
  simp only [decompress, hie, Bool.false_eq_true, if_false]
  rw [specialFixes_id hs]
  rw [findComments_nil hs]
  simp only [if_true]
  rw [if_neg (by decide : ¬((true && decide (List.length ([] : List Str) > 0)) = true))]
  simp only [List.enum_nil, List.foldl_nil]
  rw [foldl_replaceAll_id (by decide) hs, applyCommonFixes_id hs]

theorem hasSubstr_append_self : ∀ (pre l : Str), hasSubstr l (pre ++ l) = true := by
  intro pre
  induction pre with
  | nil =>
    intro l
    cases l with
    | nil => rfl
    | cons c cs =>
      show hasSubstr (c :: cs) (c :: cs) = true
      rw [hasSubstr_cons, Bool.or_eq_true, isPre_eq]
      exact Or.inl (List.isPrefixOf_iff_prefix.mpr (List.prefix_refl _))
  | cons c pre2 ih =>
    intro l
    show hasSubstr l (c :: (pre2 ++ l)) = true
    rw [hasSubstr_cons, Bool.or_eq_true]
    exact Or.inr (ih l)

theorem detect_of_anchor (code : Str) (opts : KOpts) :
    detectCompressionMethod (compressWithPatterns code opts) =
      .ok (str "semantic-kanji") := by
  have h : (compressWithPatterns code opts).getLast? = some anchorChar := by
    unfold compressWithPatterns
    exact List.getLast?_concat _
  unfold detectCompressionMethod isSemanticKanjiCompressed
  rw [h]
  simp

theorem detect_of_kanji {code : Str}
    (h1 : isSemanticKanjiCompressed code = false)
    (h2 : isKanjiCompressed code = true) :
    detectCompressionMethod code = .ok (str "kanji") := by
  unfold detectCompressionMethod
  rw [h1, h2]
  simp

/-! ## Certification of the precomputed entry lists -/

theorem kanjiDict_spec : kanjiDict = objectEntries kanjiDictRaw := by decide!

theorem semanticEntries_spec :
    semanticEntries = objectEntries semanticPatternsRaw := by decide!

theorem sortedKanjiEntries_spec : sortedKanjiEntries = sortLenDesc kanjiDict := by
  decide!

theorem reverseDict_spec :
    reverseDict = objectEntries (kanjiDict.map (fun e => (e.2, e.1))) := by decide!

theorem sortedRevEntries_spec : sortedRevEntries = sortLenDesc reverseDict := by
  decide!

theorem legacySortedRevEntries_spec :
    legacySortedRevEntries = sortLenAsc reverseDict := by decide!

/-! ## Shared evaluation lemmas -/

theorem eval_patternsLast :
    decompressWithPatterns (str "⏱()⚓") decompressDefaults = .ok debounceTemplate := by
  decide!

theorem eval_specOrder :
    specOrderDecompressWithPatterns (str "⏱()⚓") decompressDefaults =
      .ok debounceFormatted := by
  decide!

/-! ## Claims -/

/-- C1, counterexample: the character-tier round trip is not the identity
modulo whitespace normalization for every pattern-free source text — the
input `get` comes back as `pop` (both share the replacement character 取 and
the reverse map keeps the last entry, `pop`), and the two differ under any
whitespace normalization. -/
theorem C1_roundtrip_counterexample :
    roundtripKanji (str "get") = .ok (str "pop") ∧
    stripWs (str "pop") ≠ stripWs (str "get") ∧
    collapseWsRuns (str "pop") ≠ collapseWsRuns (str "get") := by
  refine ⟨by decide!, by decide, by decide⟩

/-- C1 (amended): the round trip is not the identity modulo collapsing
whitespace runs for all inputs (see the counterexample), but on the concrete
scenario input `function test() { return 42; }`, compressing with the
character tier and decompressing yields `function test() {return 42;}`, which
equals the input after whitespace is removed entirely — though not after
merely collapsing runs to single spaces, since the space after `{` is not
restored. -/
theorem C1_roundtrip_concrete :
    roundtripKanji c1Input = .ok c1Output ∧
    stripWs c1Output = stripWs c1Input ∧
    collapseWsRuns c1Output ≠ collapseWsRuns c1Input := by
  refine ⟨by decide!, by decide, by decide⟩

/-- C2, counterexample: the scraping pattern's target `웎.ꪂ($1, $2, $3, $4)`
omits `$5` while its template reuses `$2`, `$3`, `$5`.  On text matching the
template's synthesized regex (carrying the literal backslashes the
double-escaping demands at each placeholder and at the template's two bare
`$` spots) with arguments `f, u, r, s, e`, compressing then decompressing
yields `웎.ꪂ(f, u, u, r)`: the third slot receives `$2`'s value, the values
of `$4` and `$5` are dropped, and the template is never re-expanded — not
the reconstruction the claim requires. -/
theorem C2_placeholder_counterexample :
    (scrapeTemplate, scrapeSymbol) ∈ semanticEntries ∧
    hasSubstr (str "$5") scrapeTemplate = true ∧
    hasSubstr (str "$5") scrapeSymbol = false ∧
    (matchSegs (parseSegs [] scrapeTemplate) t2Input).isSome = true ∧
    roundtripSemantic t2Input = .ok t2Output ∧
    t2Output ≠ t2Expected ∧
    stripWs t2Output ≠ stripWs t2Input := by
  refine ⟨by decide!, by decide, by decide, by decide!, by decide!, by decide, by decide⟩

/-- C2 (amended): pattern-tier compression substitutes captured values into
the target by capture-group index, and decompression's symbol regexes (which
demand a literal backslash before every captured argument) never match the
compression output, so argument values are not reproduced at their template
positions when the target omits or reorders placeholder numbers.  Only a
placeholder-free pattern round-trips exactly: the debounce template maps to
`⏱()` and back to the identical template text. -/
theorem C2_placeholder_amended :
    (debounceTemplate, debounceSymbol) ∈ semanticEntries ∧
    roundtripSemantic debounceTemplate = .ok debounceTemplate := by
  refine ⟨by decide!, by decide!⟩

/-- C3, counterexample: the reverse-map entry list the live character-tier
decompressor folds over (`sortedRevEntries`, certified equal to
`sortLenDesc reverseDict` by `sortedRevEntries_spec`) is *not* sorted by
replacement length ascending — it starts with a length-4 replacement and
ends with a length-1 replacement. -/
theorem C3_reverse_order_counterexample :
    isSortedAscNat (keyLens sortedRevEntries) = false ∧
    (keyLens sortedRevEntries).head? = some 4 ∧
    (keyLens sortedRevEntries).getLast? = some 1 := by
  refine ⟨by decide!, by decide!, by decide!⟩

/-- C3 (amended): the live decompressor applies reverse-map entries sorted by
replacement length *descending* (longest first), so that when one
replacement is a substring of a longer one — e.g. 網 (`http`) inside 網安
(`https`) — the longer entry is reversed first and its fragment is not
corrupted: decompressing 網安 yields `https`, not `http安`.  Only the legacy
combined module sorts ascending. -/
theorem C3_reverse_order_amended :
    isSortedDescNat (keyLens sortedRevEntries) = true ∧
    isSortedAscNat (keyLens legacySortedRevEntries) = true ∧
    hasSubstr (str "網") (str "網安") = true ∧
    decompress (str "網安") ⟨false, true⟩ = .ok (str "https") := by
  refine ⟨by decide!, by decide!, by decide, by decide!⟩

/-- C4, counterexample: decompression does *not* run the pattern-tier
reversal before the character-tier pass.  On the document `⏱()⚓`, the
code's order and the spec's order produce different outputs (the spec's
order would let the formatter rework the expanded debounce template,
inserting a space after `function`). -/
theorem C4_order_counterexample :
    decompressWithPatterns (str "⏱()⚓") decompressDefaults ≠
      specOrderDecompressWithPatterns (str "⏱()⚓") decompressDefaults ∧
    specOrderDecompressWithPatterns (str "⏱()⚓") decompressDefaults =
      .ok debounceFormatted := by
  constructor
  · rw [eval_patternsLast, eval_specOrder]
    decide
  · exact eval_specOrder

/-- C4 (amended): `decompressWithPatterns` runs the character-tier reversal
(including formatting) *first* and expands pattern symbols afterwards: the
document `⏱()⚓` decompresses to the debounce template verbatim, untouched
by the formatter. -/
theorem C4_order_amended :
    decompressWithPatterns (str "⏱()⚓") decompressDefaults = .ok debounceTemplate ∧
    (debounceTemplate, debounceSymbol) ∈ semanticEntries := by
  exact ⟨eval_patternsLast, by decide!⟩

/-- C5, counterexample: pattern-tier compression applies the semantic
entries in dictionary insertion order, which is *not* sorted by template
length descending — the entry applied second has a 229-character template
while the entry applied fifth has a 704-character template. -/
theorem C5_pattern_order_counterexample :
    isSortedDescNat (keyLens patternApplicationOrder) = false ∧
    (keyLens patternApplicationOrder).get? 1 = some 229 ∧
    (keyLens patternApplicationOrder).get? 4 = some 704 := by
  refine ⟨by decide!, by decide!, by decide!⟩

/-- C5 (amended): the application order is deterministic — it is the
dictionary's insertion order, whose template lengths are listed here
explicitly — but it is not sorted by template length, so a longer matching
template does not in general win over a shorter one applied earlier. -/
theorem C5_pattern_order_amended :
    keyLens patternApplicationOrder =
      [404, 229, 177, 186, 704, 382, 238, 206, 236, 46, 98, 211, 253, 154,
       181, 166, 178, 250, 227, 306, 131, 64, 224, 452, 71, 78, 88, 141,
       170, 173, 220, 127, 121, 140, 104, 471, 286, 576, 695, 301, 160,
       190, 417, 350, 220, 183, 140, 215, 250, 356, 224] ∧
    isSortedDescNat (keyLens patternApplicationOrder) = false := by
  refine ⟨by decide!, by decide!⟩

/-- C6, counterexample: the static `SemanticKanjiModule.compress` does not
surface the unknown-method error — it catches it and silently falls back to
plain kanji compression: with method `rot13` it returns exactly the kanji
compression of the input. -/
theorem C6_static_fallback_counterexample :
    staticCompress (str "function") (str "rot13") kanjiCompressDefaults =
      jsKanjiCompress (str "function") kanjiCompressDefaults ∧
    jsKanjiCompress (str "function") kanjiCompressDefaults = str "関" := by
  refine ⟨by decide!, by decide!⟩

/-- C6 (amended): the *instance* `compress` raises `Unknown compression
method: <name>` (with the lower-cased rejected name in the message) for every
method outside `kanji`/`semantic-kanji`/`semantic`; the *static* wrapper,
however, catches that error and silently defaults to kanji compression. -/
theorem C6_unknown_method_amended :
    ∀ (code method : Str) (opts : KOpts),
      jsToLower method ≠ str "kanji" →
      jsToLower method ≠ str "semantic-kanji" →
      jsToLower method ≠ str "semantic" →
      instanceCompress code method opts =
        .error (str "Unknown compression method: " ++ jsToLower method) ∧
      hasSubstr (jsToLower method)
        (str "Unknown compression method: " ++ jsToLower method) = true := by
  intro code method opts h1 h2 h3
  constructor
  · unfold instanceCompress
    rw [if_neg h1, if_neg (by intro hc; rcases hc with hc | hc
                              exacts [h2 hc, h3 hc])]
  · exact hasSubstr_append_self _ _

/-- Witness for C6 at the concrete method string `rot13`. -/
theorem C6_unknown_method_witness :
    instanceCompress (str "hello") (str "rot13") kanjiCompressDefaults =
      .error (str "Unknown compression method: " ++ jsToLower (str "rot13")) ∧
    hasSubstr (jsToLower (str "rot13"))
      (str "Unknown compression method: " ++ jsToLower (str "rot13")) = true :=
  C6_unknown_method_amended (str "hello") (str "rot13") kanjiCompressDefaults
    (by decide) (by decide) (by decide)

/-- C7, counterexample: decompression with `auto` does not surface the
`Unable to determine compression method` error through the static wrapper —
the wrapper catches it and falls back to (guesses) the character-tier
reversal path, returning `hello` unchanged. -/
theorem C7_static_guess_counterexample :
    staticDecompress (str "hello") (str "auto") decompressDefaults =
      .ok (str "hello") ∧
    detectCompressionMethod (str "hello") =
      .error (str "Unable to determine compression method") := by
  refine ⟨by decide!, by decide!⟩

/-- C7 (amended): when the text carries neither semantic markers nor
dictionary kanji, the *instance* `decompress` with method `auto` raises
`Unable to determine compression method`; the *static* wrapper instead
falls back to the character-tier decompressor. -/
theorem C7_auto_error_amended :
    ∀ (code : Str) (opts : DOpts),
      isSemanticKanjiCompressed code = false →
      isKanjiCompressed code = false →
      detectCompressionMethod code =
        .error (str "Unable to determine compression method") ∧
      instanceDecompress code (str "auto") opts =
        .error (str "Unable to determine compression method") := by
  intro code opts h1 h2
  have hd : detectCompressionMethod code =
      .error (str "Unable to determine compression method") := by
    unfold detectCompressionMethod
    rw [h1, h2]
    simp
  refine ⟨hd, ?_⟩
  unfold instanceDecompress
  rw [if_pos (by decide : jsToLower (str "auto") = str "auto"), hd]

/-- Witness for C7 at the concrete input `hello`. -/
theorem C7_auto_error_witness :
    detectCompressionMethod (str "hello") =
      .error (str "Unable to determine compression method") ∧
    instanceDecompress (str "hello") (str "auto") decompressDefaults =
      .error (str "Unable to determine compression method") :=
  C7_auto_error_amended (str "hello") decompressDefaults (by decide) (by decide!)

/-- C8, counterexample: character-tier decompression is *not* a passthrough
on all text free of reverse-dictionary characters — the hard-coded repair
rule `\.pop → .get` rewrites `.pop` (which contains no dictionary
replacement character) to `.get`, with formatting disabled. -/
theorem C8_passthrough_counterexample :
    (str ".pop").all
      (fun c => sortedRevEntries.all (fun e => !(e.1.contains c))) = true ∧
    decompress (str ".pop") ⟨false, true⟩ = .ok (str ".get") ∧
    str ".get" ≠ str ".pop" := by
  refine ⟨by decide!, by decide!, by decide⟩

/-- C8 (amended): passthrough holds away from the repair rules: every
non-empty text consisting only of ASCII letters and spaces (such text
contains no dictionary replacement character and triggers no special-case or
common-fix rule) is returned unchanged by `decompress` when formatting is
disabled. -/
theorem C8_passthrough_amended :
    ∀ s : Str, s ≠ [] → s.all isPlainChar = true →
      decompress s ⟨false, true⟩ = .ok s :=
  fun _ h1 h2 => decompress_plain h1 h2

/-- Witness for C8 at the concrete input `hello world`. -/
theorem C8_passthrough_witness :
    decompress (str "hello world") ⟨false, true⟩ = .ok (str "hello world") :=
  C8_passthrough_amended (str "hello world") (by decide) (by decide)

/-- C9, counterexample: in dense-script mode the estimator does not ceil each
ASCII run separately — on `ab漢cd` the code computes `⌈4/4⌉ + 1 = 2`, while
the spec's per-run formula gives `⌈2/4⌉ + ⌈2/4⌉ + 1 = 3`. -/
theorem C9_estimate_counterexample :
    estimateTokens (str "ab漢cd") true = 2 ∧
    specEstimatePerRun (str "ab漢cd") = 3 ∧
    estimateTokens (str "ab漢cd") true ≠ specEstimatePerRun (str "ab漢cd") := by
  refine ⟨by decide, by decide, by decide⟩

/-- C9 (amended): with `assumeDenseScript` false the estimate is
`⌈length/4⌉` over the whole text; with it true, the characters with code
≤ 0xFF are counted *collectively* under a single ceiling `⌈count/4⌉`, and
every character with code > 0xFF costs exactly 1, the result being their
sum. -/
theorem C9_estimate_amended :
    ∀ s : Str,
      estimateTokens s false = ceilDiv4 s.length ∧
      estimateTokens s true =
        ceilDiv4 (s.countP (fun c => c.toNat ≤ 0xFF)) +
          s.countP (fun c => !(c.toNat ≤ 0xFF : Bool)) := by
  intro s
  constructor
  · simp [estimateTokens, lenL_eq]
  · simp only [estimateTokens, Bool.not_false, if_false]
    rw [List.countP_eq_length_filter, List.countP_eq_length_filter]
    simp [lenL_eq]

/-- C10, counterexample: classification is not idempotent over compression
for the character-tier method — compressing `zzz` with `kanji` leaves it
unchanged (no dictionary word occurs), and the detector then raises instead
of returning `kanji`. -/
theorem C10_classification_counterexample :
    instanceCompress (str "zzz") (str "kanji") kanjiCompressDefaults =
      .ok (str "zzz") ∧
    detectCompressionMethod (str "zzz") =
      .error (str "Unable to determine compression method") := by
  refine ⟨by decide!, by decide!⟩

/-- C10 (amended): classification is idempotent for `semantic-kanji`
unconditionally (the anchor marker is always appended), and for `kanji`
exactly when the compressed output actually contains a dictionary character
and no semantic marker. -/
theorem C10_classification_amended :
    (∀ (code : Str) (opts : KOpts),
      detectCompressionMethod (compressWithPatterns code opts) =
        .ok (str "semantic-kanji")) ∧
    (∀ (code : Str) (opts : KOpts),
      isSemanticKanjiCompressed (jsKanjiCompress code opts) = false →
      isKanjiCompressed (jsKanjiCompress code opts) = true →
      detectCompressionMethod (jsKanjiCompress code opts) = .ok (str "kanji")) :=
  ⟨detect_of_anchor, fun _ _ h1 h2 => detect_of_kanji h1 h2⟩

/-- Witness for C10 at the concrete input `function`. -/
theorem C10_classification_witness :
    detectCompressionMethod
      (compressWithPatterns (str "function") kanjiCompressDefaults) =
      .ok (str "semantic-kanji") ∧
    detectCompressionMethod (jsKanjiCompress (str "function") kanjiCompressDefaults) =
      .ok (str "kanji") :=
  ⟨C10_classification_amended.1 (str "function") kanjiCompressDefaults,
   C10_classification_amended.2 (str "function") kanjiCompressDefaults
     (by decide!) (by decide!)⟩

end JsKanji
